import Mathlib

/-!
Verification model of `produce_pachet_service.py` (invoicing-erp-desktop).

The Python module implements a transactional "produce a package" operation
against a Firebird ledger.  This file shallowly embeds the module:

* Python `Decimal` values are modelled by exact rationals (`Rat`); the only
  rounding rule used by the service (`quantize` to 4 places, ROUND_HALF_UP)
  is modelled explicitly by `quantizeMoney`.
* Python strings are modelled by `String`, with the string primitives the
  service uses (`strip`, `zfill`, `ljust`, slicing, `isdigit`, `upper`,
  `lower`, substring tests) re-implemented over `String.data` so that they
  are easy to reason about.  `str.isdigit` / case mapping are modelled at
  ASCII level, which covers every code path of the service (codes are
  ASCII digit strings, column names are ASCII identifiers).
* Calendar dates carry no time component in the service; they are modelled
  as abstract day ordinals (`Int`), only compared for equality.
* The database is modelled as an explicit state record (`DB`): the tables
  the service touches (`ARTICOLE`, `MISCARI`, `BON_DET`, `PRED_DET`) plus
  the schema facts it introspects at run time.  Every SQL statement the
  service issues is translated to a Lean function over `DB`; statements
  that mutate return the updated state.  Failures (Python exceptions) are
  modelled by `Except PError`; a failing step returns the state as mutated
  so far, and the transaction orchestrator discards it on rollback.
* The input payload is modelled after scalar coercion: `_parse_int`,
  `_parse_date` and `_to_decimal` failures happen before every property
  verified here and are orthogonal to them, so `RawPayload` carries typed
  scalars while all structural and cross-field checks of
  `validate_produce_pachet_input` are modelled faithfully.
-/

deriving instance DecidableEq for Except

namespace Erp

/-! ### String primitives (Python semantics over `String.data`) -/

/-- Python `str.strip()` (both ends, whitespace). -/
def pyStrip (s : String) : String :=
  String.mk (((s.data.dropWhile Char.isWhitespace).reverse.dropWhile Char.isWhitespace).reverse)

/-- Python `str.rstrip()` (trailing whitespace), used by `_trim_db_char`. -/
def pyRstrip (s : String) : String :=
  String.mk ((s.data.reverse.dropWhile Char.isWhitespace).reverse)

/-- Python `s[:n]` on strings. -/
def strTake (s : String) (n : Nat) : String :=
  String.mk (s.data.take n)

/-- Python `str.ljust(width)` with spaces. -/
def ljust (s : String) (width : Nat) : String :=
  String.mk (s.data ++ List.replicate (width - s.data.length) ' ')

/-- Python `str.zfill(width)` for unsigned strings (the service only applies
it to digit-only strings). -/
def zfill (s : String) (width : Nat) : String :=
  String.mk (List.replicate (width - s.data.length) '0' ++ s.data)

/-- Python `str.isdigit()` at ASCII level: non-empty and all decimal digits. -/
def pyIsDigit (s : String) : Bool :=
  !s.data.isEmpty && s.data.all Char.isDigit

/-- Python `str.upper()` (ASCII level, enough for column identifiers). -/
def pyUpper (s : String) : String :=
  String.mk (s.data.map Char.toUpper)

/-- Python `str.lower()` (ASCII level). -/
def pyLower (s : String) : String :=
  String.mk (s.data.map Char.toLower)

/-- Bool test that `pat` is a prefix of `l`. -/
def listIsPrefix (pat l : List Char) : Bool :=
  l.take pat.length == pat

/-- Bool test that `pat` occurs inside `l` (at any position). -/
def listContainsSub (pat : List Char) : List Char → Bool
  | [] => listIsPrefix pat []
  | c :: rest => listIsPrefix pat (c :: rest) || listContainsSub pat rest

/-- Python `needle in hay` on strings. -/
def strContains (hay needle : String) : Bool :=
  listContainsSub needle.data hay.data

/-- Python `str.startswith`. -/
def strStartsWith (s pre : String) : Bool :=
  s.data.take pre.data.length == pre.data

/-- Python `str.endswith`. -/
def strEndsWith (s suf : String) : Bool :=
  s.data.drop (s.data.length - suf.data.length) == suf.data

/-- Insertion into a lexicographically sorted list of strings. -/
def insertSorted (x : String) : List String → List String
  | [] => [x]
  | y :: ys => if x < y then x :: y :: ys else y :: insertSorted x ys

/-- Python `sorted` on a list of strings. -/
def sortStrings (l : List String) : List String :=
  l.foldr insertSorted []

/-- Python `", ".join(sorted(names))`, used for error messages. -/
def joinSorted (names : List String) : String :=
  String.intercalate ", " (sortStrings names)

/-! ### Money model: `_quantize_money` -/

/-- Floor of a rational, written out over the numerator and denominator so
that it evaluates inside the kernel (`Rat.floor_def` shows it agrees with
`Int.floor`). -/
def ratFloor (q : Rat) : Int :=
  q.num / q.den

/-- Round a rational to an integer, ties away from zero
(Python `decimal.ROUND_HALF_UP`). -/
def roundHalfUp (x : Rat) : Int :=
  if 0 ≤ x then ratFloor (x + 1 / 2) else -ratFloor (-x + 1 / 2)

/-- `_quantize_money`: quantize to 4 decimal places with ROUND_HALF_UP. -/
def quantizeMoney (v : Rat) : Rat :=
  (roundHalfUp (v * 10000) : Rat) / 10000

/-! ### Errors

Python exception values are modelled by `PError`; the constructor keeps the
Python exception class (`ValueError`, `RuntimeError`, or an error raised by
the database driver), the payload keeps the message.  Interpolated runtime
diagnostics (dates, counts) are dropped from messages because dates are
abstract in this model; the fixed text of each message is kept. -/

inductive PError where
  | valueError (msg : String)
  | runtimeError (msg : String)
  | dbError (msg : String)
  deriving Repr, DecidableEq

/-- Python `str(exc)`. -/
def PError.message : PError → String
  | .valueError m => m
  | .runtimeError m => m
  | .dbError m => m

/-- `_is_unique_violation`: classify an exception by message substrings. -/
def is_unique_violation (e : PError) : Bool :=
  let message := pyLower e.message
  strContains message "violation of primary or unique key constraint"
    || strContains message "unique key"
    || strContains message "duplicate"
    || strContains message "sqlstate = 23000"

/-! ### Data model -/

/-- Calendar dates (no time component): abstract day ordinals. -/
abbrev Date := Int

/-- `PachetInput` dataclass. -/
structure PachetInput where
  id_doc : Int
  data : Date
  denumire : String
  pret_vanz : Rat
  cota_tva : Rat
  cost_total : Rat
  gestiune : String
  cantitate_produsa : Rat
  status : String
  deriving Repr, DecidableEq

/-- `ProdusInput` dataclass. -/
structure ProdusInput where
  cod_articol_raw : String
  cod_articol_db : String
  cantitate : Rat
  val_produse : Rat
  deriving Repr, DecidableEq

/-- `ProducePachetInput` dataclass. -/
structure ProducePachetInput where
  pachet : PachetInput
  produse : List ProdusInput
  deriving Repr, DecidableEq

/-- `_operation_sign`: -1 for storno (reversal), +1 for normal production. -/
def operation_sign (pachet : PachetInput) : Int :=
  if pachet.cantitate_produsa < 0 then -1 else 1

/-! ### `normalizeCodArticol` and `_normalize_fixed_char` -/

/-- `_normalize_fixed_char`: strip, reject empty or over-long strings. -/
def normalize_fixed_char (value : String) (max_length : Nat) : Except PError String :=
  let trimmed := pyStrip value
  if trimmed = "" then
    .error (.valueError "String field cannot be empty.")
  else if max_length < trimmed.data.length then
    .error (.valueError ("Value " ++ trimmed ++ " exceeds max length " ++ toString max_length ++ "."))
  else
    .ok trimmed

/-- `normalizeCodArticol`: normalize an article code to the fixed CHAR(16)
database format.  A 16-character input is kept after checking its first
8 characters are digits; otherwise the stripped input must be a non-empty
digit string of at most 8 digits and is zero-padded to 8 digits then
space-padded to 16 characters.  (The `cod is None` guard of the source is
outside this typed model.) -/
def normalizeCodArticol (cod : String) : Except PError String :=
  let raw := cod
  if raw.data.length = 16 then
    let first8 := strTake raw 8
    if !pyIsDigit first8 then
      .error (.valueError ("Invalid cod_articol " ++ raw ++ ". First 8 chars must be digits."))
    else
      .ok raw
  else
    let trimmed := pyStrip raw
    if trimmed = "" then
      .error (.valueError "cod_articol cannot be empty.")
    else if !pyIsDigit trimmed then
      .error (.valueError ("Invalid cod_articol " ++ trimmed ++ ". Only digits are allowed."))
    else if 8 < trimmed.data.length then
      .error (.valueError ("Invalid cod_articol " ++ trimmed ++ ". Expected max 8 digits or fixed CHAR(16)."))
    else
      .ok (ljust (zfill trimmed 8) 16)

/-! ### `validate_produce_pachet_input` -/

/-- A `produse` entry of the payload after scalar coercion. -/
structure RawProdus where
  cantitate : Rat
  val_produse : Rat
  cod_articol : String
  deriving Repr, DecidableEq

/-- The `pachet` object of the payload after scalar coercion. -/
structure RawPachet where
  id_doc : Int
  data : Date
  denumire : String
  pret_vanz : Rat
  cota_tva : Rat
  cost_total : Rat
  gestiune : String
  cantitate_produsa : Rat
  status : String
  deriving Repr, DecidableEq

/-- The payload after shape checks and scalar coercion. -/
structure RawPayload where
  pachet : RawPachet
  produse : List RawProdus
  deriving Repr, DecidableEq

/-- `_VALID_TVA`. -/
def validTva : List Rat := [0, 11, 21]

/-- The field-level checks on the parsed `pachet`, in source order. -/
def pachetFieldChecks (pachet : PachetInput) : Except PError Unit :=
  if pachet.id_doc ≤ 0 then
    .error (.valueError "pachet.id_doc must be > 0.")
  else if !(["pending", "processing"].contains pachet.status) then
    .error (.valueError "pachet.status must be processing or pending.")
  else if pachet.cantitate_produsa = 0 then
    .error (.valueError "pachet.cantitate_produsa must be non-zero.")
  else if pachet.pret_vanz < 0 then
    .error (.valueError "pachet.pret_vanz must be >= 0.")
  else if pachet.cost_total = 0 then
    .error (.valueError "pachet.cost_total must be non-zero.")
  else if !(validTva.contains (quantizeMoney pachet.cota_tva)) then
    .error (.valueError "pachet.cota_tva must be one of: 0, 11, 21.")
  else
    .ok ()

/-- The per-material loop of the validator: checks each entry (1-based
index), normalizes its code, and accumulates the sum of `val_produse`. -/
def validateProdusList (expected_sign : Int) : Nat → List RawProdus →
    Except PError (List ProdusInput × Rat)
  | _, [] => .ok ([], 0)
  | index, produs :: rest =>
    if produs.cantitate = 0 then
      .error (.valueError ("produse[" ++ toString index ++ "].cantitate must be non-zero."))
    else if (if 0 < produs.cantitate then (1 : Int) else -1) ≠ expected_sign then
      .error (.valueError ("produse[" ++ toString index ++
        "].cantitate sign must match pachet.cantitate_produsa sign."))
    else if produs.val_produse = 0 then
      .error (.valueError ("produse[" ++ toString index ++ "].val_produse must be non-zero."))
    else
      match normalizeCodArticol produs.cod_articol with
      | .error e => .error e
      | .ok cod_db =>
        match validateProdusList expected_sign (index + 1) rest with
        | .error e => .error e
        | .ok (produse, total) =>
          .ok ({ cod_articol_raw := pyStrip produs.cod_articol, cod_articol_db := cod_db,
                 cantitate := produs.cantitate, val_produse := produs.val_produse } :: produse,
               produs.val_produse + total)

/-- The cross-field sum invariant whose failure aborts validation:
the quantized material-value total differs from the quantized total cost
and also differs on absolute values. -/
def costMismatch (total cost : Rat) : Prop :=
  quantizeMoney total ≠ quantizeMoney cost ∧ quantizeMoney |total| ≠ quantizeMoney |cost|

instance (total cost : Rat) : Decidable (costMismatch total cost) := by
  unfold costMismatch; infer_instance

/-- Fixed text of the sum-consistency error (the source appends the two
quantized values as diagnostics). -/
def costMismatchMsg : String :=
  "pachet.cost_total does not match SUM(produse[*].val_produse)."

/-- Build the `PachetInput` from the payload (construction step of the
validator; `denumire` and `gestiune` are the already-normalized values). -/
def mkPachet (payload : RawPayload) (denumire gestiune : String) : PachetInput :=
  { id_doc := payload.pachet.id_doc, data := payload.pachet.data,
    denumire := denumire, pret_vanz := payload.pachet.pret_vanz,
    cota_tva := payload.pachet.cota_tva, cost_total := payload.pachet.cost_total,
    gestiune := gestiune, cantitate_produsa := payload.pachet.cantitate_produsa,
    status := pyLower (pyStrip payload.pachet.status) }

/-- `validate_produce_pachet_input`: validate the payload and return the
normalized request.  Pure: takes no database state. -/
def validate_produce_pachet_input (payload : RawPayload) : Except PError ProducePachetInput :=
  if payload.produse = [] then
    .error (.valueError "Field produse is required and must be a non-empty array.")
  else
    match normalize_fixed_char payload.pachet.denumire 255 with
    | .error e => .error e
    | .ok denumire =>
      match normalize_fixed_char payload.pachet.gestiune 16 with
      | .error e => .error e
      | .ok gestiune =>
        let pachet := mkPachet payload denumire gestiune
        match pachetFieldChecks pachet with
        | .error e => .error e
        | .ok _ =>
          let expected_sign : Int := if 0 < pachet.cantitate_produsa then 1 else -1
          match validateProdusList expected_sign 1 payload.produse with
          | .error e => .error e
          | .ok (produse, total_val_produse) =>
            if costMismatch total_val_produse pachet.cost_total then
              .error (.valueError costMismatchMsg)
            else
              .ok { pachet := pachet, produse := produse }

/-! ### Database model

Each table the service touches is a list of rows.  `MISCARI` and `ARTICOLE`
have the fixed shapes the service writes; the two detail tables are
dynamically shaped, so their rows are association lists from column name to
value.  The schema record holds the facts the service discovers at run time
through `RDB$RELATION_FIELDS` probes. -/

/-- A value stored in a dynamically-shaped detail-table column. -/
inductive DVal where
  | intV (n : Int)
  | ratV (q : Rat)
  | strV (s : String)
  | dateV (d : Date)
  | timeV (h m s : Nat)
  | timestampV (d : Date) (h m s : Nat)
  deriving Repr, DecidableEq

/-- A dynamically-shaped row: column name to value. -/
abbrev DRow := List (String × DVal)

/-- An `ARTICOLE` row (the columns the service reads/writes). -/
structure ArticolRow where
  cod : String
  denumire : String
  um : String
  tva : Rat
  den_tip : String
  tip : String
  deriving Repr, DecidableEq

/-- A `MISCARI` row.  `id_u` and `pret` are optional columns; a row stores
`none` when the insert statement omitted the column (SQL NULL). -/
structure MiscariRow where
  id : Int
  id_u : Option Int
  data : Date
  nr_doc : Int
  tip_doc : String
  cod_art : String
  cantitate : Rat
  gestiune : String
  pret : Option Rat
  deriving Repr, DecidableEq

/-- A raw `RDB$RELATION_FIELDS` catalog row as fetched by
`select_relation_fields`: name, null flag, presence of a default source,
identity type (−1 when NULL), base field type code. -/
structure CatalogField where
  name : String
  null_flag : Int
  has_default : Bool
  identity_type : Int
  field_type : Int
  deriving Repr, DecidableEq

/-- The classified column descriptor produced by `_get_relation_fields`. -/
structure FieldInfo where
  name : String
  required : Bool
  identity : Bool
  field_type : Int
  deriving Repr, DecidableEq

/-- Run-time schema facts (results of the catalog probes). -/
structure Schema where
  miscariHasPret : Bool
  miscariHasIdU : Bool
  bonDetCatalog : List CatalogField
  predDetCatalog : List CatalogField
  deriving Repr, DecidableEq

/-- The database state. -/
structure DB where
  articole : List ArticolRow
  miscari : List MiscariRow
  bonDet : List DRow
  predDet : List DRow
  schema : Schema
  deriving Repr, DecidableEq

/-- Read a column of a dynamic row (`none` models SQL NULL / absent). -/
def rowCol (row : DRow) (name : String) : Option DVal :=
  (row.find? (fun p => p.1 == name)).map (fun p => p.2)

/-- Python `int(x or 0)` on a fetched value. -/
def dvalToInt : DVal → Int
  | .intV n => n
  | _ => 0

/-- `SELECT MAX(column)` over a list of values (`none` when no rows). -/
def sqlMax : List Int → Option Int
  | [] => none
  | n :: rest =>
    match sqlMax rest with
    | none => some n
    | some m => some (max n m)

/-- `COALESCE(x, 0)`. -/
def coalesce0 (o : Option Int) : Int :=
  o.getD 0

/-- `_get_relation_fields`: classify the catalog rows of a detail table.
A column is required iff non-nullable with no database default; identity
columns have a non-negative identity type. -/
def get_relation_fields_of (catalog : List CatalogField) : List FieldInfo :=
  catalog.map (fun f =>
    { name := f.name, required := f.null_flag == (1 : Int) && !f.has_default,
      identity := decide ((0 : Int) ≤ f.identity_type), field_type := f.field_type })

/-- Catalog lookup per table name (`select_relation_fields`). -/
def get_relation_fields (db : DB) (relation_name : String) : List FieldInfo :=
  if relation_name = "BON_DET" then get_relation_fields_of db.schema.bonDetCatalog
  else if relation_name = "PRED_DET" then get_relation_fields_of db.schema.predDetCatalog
  else []

/-- Whether `PRED_DET` has a column of the given name (a query naming a
missing column fails at the driver). -/
def predDetHasCol (db : DB) (name : String) : Bool :=
  db.schema.predDetCatalog.any (fun f => f.name == name)

/-- `select_pred_det_existing_nr_doc_by_id_doc` / `..._by_id_unic`:
`SELECT FIRST 1 NR_DOC FROM PRED_DET WHERE keyCol = id ORDER BY NR_DOC
DESC`.  Fails when the key column does not exist in the deployed schema;
returns `none` when no row matches. -/
def predDetNrDocBy (db : DB) (keyCol : String) (idv : Int) : Except PError (Option Int) :=
  if predDetHasCol db keyCol && predDetHasCol db "NR_DOC" then
    .ok (sqlMax ((db.predDet.filter
      (fun row => rowCol row keyCol == some (.intV idv))).map
      (fun row => dvalToInt ((rowCol row "NR_DOC").getD (.intV 0)))))
  else
    .error (.dbError ("column " ++ keyCol ++ " does not exist in PRED_DET"))

/-- The `pred_row` computation of `_find_existing_document`: try the
`ID_DOC` lookup, fall back to the legacy `ID_UNIC` lookup; a failing query
is treated as no row. -/
def predRowLookup (db : DB) (id_doc : Int) : Option Int :=
  let first :=
    match predDetNrDocBy db "ID_DOC" id_doc with
    | .ok r => r
    | .error _ => none
  match first with
  | some v => some v
  | none =>
    match predDetNrDocBy db "ID_UNIC" id_doc with
    | .ok r => r
    | .error _ => none

/-- Count of the `BC` movement rows for a date and document number
(`select_doc_counts_by_date_nr_doc`, first sum). -/
def bcCountFor (db : DB) (d : Date) (nr : Int) : Nat :=
  (db.miscari.filter (fun r => r.data == d && r.nr_doc == nr && r.tip_doc == "BC")).length

/-- Count of the `BP` movement rows for a date and document number
(`select_doc_counts_by_date_nr_doc`, second sum). -/
def bpCountFor (db : DB) (d : Date) (nr : Int) : Nat :=
  (db.miscari.filter (fun r => r.data == d && r.nr_doc == nr && r.tip_doc == "BP")).length

/-- `select_bp_doc_by_date_nr_doc`: `SELECT FIRST 1 ID, COD_ART FROM
MISCARI WHERE DATA = ? AND NR_DOC = ? AND TIP_DOC = BP ORDER BY ID DESC`:
the matching row with the largest `ID`. -/
def bpDocByDateNrDoc (db : DB) (d : Date) (nr : Int) : Option MiscariRow :=
  (db.miscari.filter (fun r => r.data == d && r.nr_doc == nr && r.tip_doc == "BP")).foldl
    (fun acc r =>
      match acc with
      | none => some r
      | some best => if best.id < r.id then some r else some best) none

/-- `_trim_db_char`. -/
def trim_db_char (value : String) : String :=
  pyRstrip value

/-- The `cod_pachet_db` normalization at the end of
`_find_existing_document` (pad short codes to 16, slice to 16, empty stays
empty). -/
def codFromBpRow (cod : String) : String :=
  let c := if cod ≠ "" ∧ cod.data.length < 16 then ljust (pyStrip cod) 16 else cod
  if c ≠ "" then strTake c 16 else ""

/-- The record returned by `_find_existing_document` when the document was
already imported. -/
structure ExistingDoc where
  miscari_id : Int
  nr_doc : Int
  cod_pachet_db : String
  bc_count : Nat
  bp_count : Nat
  deriving Repr, DecidableEq

/-- Fixed text of the partial-import error (the source appends id, date and
counts as diagnostics). -/
def inconsistentMsg : String :=
  "Existing production document is inconsistent (only BC or only BP rows were found)."

/-- Fixed text of the missing-BP-row error. -/
def missingBpMsg : String :=
  "Existing production document was found in PRED_DET but BP row is missing in MISCARI."

/-- `_find_existing_document`: resolve the prior processing state of
`(id_doc, data)`.  Returns `none` when unprocessed, the recorded document
when fully imported, and fails when only one of the two row kinds exists. -/
def find_existing_document (db : DB) (pachet : PachetInput) : Except PError (Option ExistingDoc) :=
  match predRowLookup db pachet.id_doc with
  | none => .ok none
  | some nr_doc_existing =>
    if nr_doc_existing ≤ 0 then .ok none
    else
      let bc_count := bcCountFor db pachet.data nr_doc_existing
      let bp_count := bpCountFor db pachet.data nr_doc_existing
      if bc_count = 0 ∧ bp_count = 0 then .ok none
      else if bc_count = 0 ∨ bp_count = 0 then
        .error (.runtimeError inconsistentMsg)
      else
        match bpDocByDateNrDoc db pachet.data nr_doc_existing with
        | none => .error (.runtimeError missingBpMsg)
        | some bp_row =>
          .ok (some { miscari_id := bp_row.id, nr_doc := nr_doc_existing,
                      cod_pachet_db := codFromBpRow bp_row.cod_art,
                      bc_count := bc_count, bp_count := bp_count })

/-! ### `ensurePachetInArticole` and the sequence allocators -/

/-- `SELECT FIRST 1 ... ORDER BY COD` over a filtered `ARTICOLE` list: the
row with the smallest `COD` (first scanned on ties). -/
def firstByCodAsc (rows : List ArticolRow) : Option ArticolRow :=
  rows.foldl
    (fun acc r =>
      match acc with
      | none => some r
      | some best => if r.cod < best.cod then some r else some best) none

/-- `select_pachet_by_denumire`: look the package up by trimmed name. -/
def selectPachetByDenumire (db : DB) (denumire : String) : Option ArticolRow :=
  firstByCodAsc (db.articole.filter (fun r => pyStrip r.denumire == pyStrip denumire))

/-- `select_max_articole_cod8`: the maximum 8-digit numeric code prefix in
`ARTICOLE` (0 when none).  The SQL `BETWEEN` range on the 8-character
prefix is modelled as the prefix being all digits, which is the condition
under which its integer cast is defined. -/
def maxArticoleCod8 (db : DB) : Nat :=
  db.articole.foldl
    (fun acc r =>
      let t := pyStrip r.cod
      if 8 ≤ t.data.length ∧ pyIsDigit (strTake t 8) then
        max acc ((strTake t 8).toNat?.getD 0)
      else acc) 0

/-- The padded 16-character form of a code read back from `ARTICOLE`
(`cod.strip().ljust(16)` when shorter than 16, then `[:16]`). -/
def padCodFromRow (cod : String) : String :=
  let c := if cod.data.length < 16 then ljust (pyStrip cod) 16 else cod
  strTake c 16

/-- `ensurePachetInArticole`: return the package code, creating the article
on first use when `allow_create` is set.  The unique-violation retry branch
of the source handles a concurrent writer; in this single-transaction model
the insert always succeeds, so that branch is unreachable. -/
def ensurePachetInArticole (db : DB) (pachet : PachetInput) (allow_create : Bool) :
    Except PError String × DB :=
  match selectPachetByDenumire db pachet.denumire with
  | some row => (.ok (padCodFromRow row.cod), db)
  | none =>
    if !allow_create then
      (.error (.runtimeError
        "Package article does not exist in ARTICOLE for storno/desfacere production."), db)
    else
      let max_code := maxArticoleCod8 db
      let code8 := zfill (toString (max_code + 1)) 8
      let code_db := ljust code8 16
      let newRow : ArticolRow :=
        { cod := code_db, denumire := pachet.denumire, um := "BUC",
          tva := pachet.cota_tva, den_tip := "Produse finite", tip := "04" }
      (.ok code_db, { db with articole := db.articole ++ [newRow] })

/-- `MAX(NR_DOC)` over `BP` movements on a date (`COALESCE` to 0). -/
def maxNrDocBp (db : DB) (d : Date) : Int :=
  coalesce0 (sqlMax ((db.miscari.filter
    (fun r => r.data == d && r.tip_doc == "BP")).map (fun r => r.nr_doc)))

/-- `getNextNrDoc`: next document number for `TIP_DOC = BP` on a date. -/
def getNextNrDoc (db : DB) (data_doc : Date) : Int :=
  maxNrDocBp db data_doc + 1

/-- `_get_next_miscari_id`: `MAX(ID)` over the whole ledger, plus 1. -/
def get_next_miscari_id (db : DB) : Int :=
  coalesce0 (sqlMax (db.miscari.map (fun r => r.id))) + 1

/-- `_get_next_miscari_id_u`: `MAX(ID_U)` over the ledger, plus 1 (SQL MAX
ignores NULLs). -/
def get_next_miscari_id_u (db : DB) : Int :=
  coalesce0 (sqlMax (db.miscari.filterMap (fun r => r.id_u))) + 1

/-- `_get_next_pred_det_nr`: `MAX(NR)` over `PRED_DET`, plus 1. -/
def get_next_pred_det_nr (db : DB) : Int :=
  coalesce0 (sqlMax (db.predDet.filterMap (fun row =>
    match rowCol row "NR" with
    | some (.intV n) => some n
    | _ => none))) + 1

/-- `_get_next_bon_det_id_u`: `MAX(ID_U)` over `BON_DET`, plus 1. -/
def get_next_bon_det_id_u (db : DB) : Int :=
  coalesce0 (sqlMax (db.bonDet.filterMap (fun row =>
    match rowCol row "ID_U" with
    | some (.intV n) => some n
    | _ => none))) + 1

/-- `select_articol_details_by_cod`: find the consumed article by exact or
trimmed code. -/
def selectArticolDetailsByCod (db : DB) (cod : String) : Option ArticolRow :=
  firstByCodAsc (db.articole.filter
    (fun r => r.cod == cod || pyStrip r.cod == pyStrip cod))

/-- `_get_articol_consum_details`: name and unit of measure of a consumed
article, with fallbacks; fails when the article is unknown. -/
def get_articol_consum_details (db : DB) (cod_articol_db : String) :
    Except PError (String × String) :=
  match selectArticolDetailsByCod db cod_articol_db with
  | none =>
    .error (.runtimeError
      "Cannot insert BON_DET consumption line because product was not found in ARTICOLE.")
  | some row =>
    let denumire := trim_db_char row.denumire
    let um := trim_db_char row.um
    let denumire := if denumire = "" then trim_db_char cod_articol_db else denumire
    let um := if um = "" then "BUC" else um
    .ok (denumire, um)

/-! ### Dynamic column mapping for the detail tables -/

/-- `_default_value_for_field_type`: synthesize a type-appropriate default
for an unmapped required column (Firebird base type codes). -/
def default_value_for_field_type (field_type : Int) (pachet : PachetInput) : Option DVal :=
  if field_type ∈ ([7, 8, 10, 16, 23, 27] : List Int) then some (.intV 0)
  else if field_type = 12 then some (.dateV pachet.data)
  else if field_type = 13 then some (.timeV 0 0 0)
  else if field_type = 35 then some (.timestampV pachet.data 0 0 0)
  else if field_type ∈ ([14, 37] : List Int) then some (.strV "")
  else none

/-- `_pred_det_field_value`: resolve a `PRED_DET` column by name.  The
direct-lookup dictionary is modelled by the first chain of equality tests
(a hit returns immediately, even a `none` value for `NR` when the table has
no secondary sequence); the substring heuristics follow. -/
def pred_det_field_value (field_name : String) (pachet : PachetInput)
    (first_produs : ProdusInput) (cod_pachet_db : String)
    (miscari_doc_id nr_doc : Int) (pred_det_nr : Option Int) (line_no : Nat) : Option DVal :=
  let upper := pyUpper field_name
  let sign := operation_sign pachet
  let qty : Rat := (sign : Rat) * |pachet.cantitate_produsa|
  let sale_value : Rat := (sign : Rat) * |pachet.pret_vanz|
  let cost_total_value : Rat := (sign : Rat) * |pachet.cost_total|
  let unit_price := sale_value
  if upper = "ID_DOC" ∨ upper = "IDDOC" ∨ upper = "DOC_ID" ∨ upper = "ID_DOCUMENT" then
    some (.intV pachet.id_doc)
  else if upper = "ID" ∨ upper = "ID_UNIC" ∨ upper = "IDUNIC" then
    some (.intV miscari_doc_id)
  else if upper = "VALIDAT" then some (.strV "V")
  else if upper = "DATA" ∨ upper = "DATA_DOC" then some (.dateV pachet.data)
  else if upper = "NR_DOC" then some (.intV nr_doc)
  else if upper = "NR" then pred_det_nr.map DVal.intV
  else if upper = "TIP_DOC" ∨ upper = "TIPDOC" then some (.strV "BP")
  else if upper = "GESTIUNE" ∨ upper = "GEST" then some (.strV pachet.gestiune)
  else if upper = "DEN_GEST" ∨ upper = "DENGEST" ∨ upper = "DENGESTIUNE" then
    some (.strV "GESTIUNEA 1")
  else if upper = "DEN_TIP" ∨ upper = "DENTIP" then some (.strV "Produse finite")
  else if upper = "UM" ∨ upper = "UNITATE_MASURA" ∨ upper = "UNITATE" then some (.strV "BUC")
  else if upper = "CANTITATE" ∨ upper = "CANT" ∨ upper = "QTY" then some (.ratV qty)
  else if upper = "VALOARE" ∨ upper = "VAL" then some (.ratV sale_value)
  else if upper = "COST" ∨ upper = "COST_TOTAL" ∨ upper = "VAL_CONSUM" ∨
      upper = "VAL_CONSUMURI" ∨ upper = "TOTAL_CONSUM" ∨ upper = "CONSUM" then
    some (.ratV cost_total_value)
  else if upper = "PRET" ∨ upper = "PRET_VANZ" ∨ upper = "PRET_UNITAR" ∨
      upper = "COST_UNITAR" then
    some (.ratV unit_price)
  else if upper = "TVA" ∨ upper = "COTA_TVA" then some (.ratV pachet.cota_tva)
  else if upper = "DENUMIRE" ∨ upper = "DEN_ART" then some (.strV pachet.denumire)
  else if upper = "NR_POZ" ∨ upper = "POZITIE" ∨ upper = "NR_LINIE" ∨ upper = "LINIE" then
    some (.intV line_no)
  else if strContains upper "COD" then
    if strContains upper "COMP" || strContains upper "MAT" || strContains upper "MATER" ||
        strContains upper "MP" then
      some (.strV first_produs.cod_articol_db)
    else if strContains upper "PACH" || strContains upper "PF" || strContains upper "PRODUS" then
      some (.strV cod_pachet_db)
    else if upper = "COD_ARTICOL" ∨ upper = "COD_ART" then some (.strV cod_pachet_db)
    else some (.strV cod_pachet_db)
  else if strContains upper "CONSUM" || strEndsWith upper "_COST" || strStartsWith upper "COST_" then
    some (.ratV cost_total_value)
  else none

/-- `_bon_det_field_value`: resolve a `BON_DET` column by name for one
consumption line. -/
def bon_det_field_value (field_name : String) (pachet : PachetInput) (produs : ProdusInput)
    (miscari_doc_id nr_doc : Int) (line_no : Nat) (bon_det_id_u : Option Int)
    (qty_consum unit_price line_value : Rat)
    (produs_denumire produs_um : String) : Option DVal :=
  let upper := pyUpper field_name
  if upper = "ID" ∨ upper = "ID_UNIC" ∨ upper = "IDUNIC" then some (.intV miscari_doc_id)
  else if upper = "ID_DOC" ∨ upper = "IDDOC" then some (.intV pachet.id_doc)
  else if upper = "ID_U" ∨ upper = "IDU" then bon_det_id_u.map DVal.intV
  else if upper = "VALIDAT" then some (.strV "V")
  else if upper = "DATA" ∨ upper = "DATA_DOC" then some (.dateV pachet.data)
  else if upper = "NR_DOC" then some (.intV nr_doc)
  else if upper = "TIP_DOC" ∨ upper = "TIPDOC" then some (.strV "BC")
  else if upper = "GESTIUNE" ∨ upper = "GEST" ∨ upper = "DEN_GEST" ∨ upper = "DENGEST" ∨
      upper = "DENGESTIUNE" then
    some (.strV "Gestiunea 1")
  else if upper = "COD" ∨ upper = "COD_ART" ∨ upper = "CODART" ∨ upper = "COD_ARTICOL" then
    some (.strV produs.cod_articol_db)
  else if upper = "DENUMIRE" ∨ upper = "DEN_ART" ∨ upper = "DENART" then
    some (.strV produs_denumire)
  else if upper = "UM" ∨ upper = "UNITATE_MASURA" ∨ upper = "UNITATE" then
    some (.strV produs_um)
  else if upper = "DEN_TIP" ∨ upper = "DENTIP" then some (.strV "Materii prime")
  else if upper = "CANTITATE" ∨ upper = "CANT" ∨ upper = "QTY" then some (.ratV qty_consum)
  else if upper = "PRET" ∨ upper = "PRET_UNITAR" ∨ upper = "PRET_MEDIU" then
    some (.ratV unit_price)
  else if upper = "VALOARE" ∨ upper = "VAL" ∨ upper = "COST" ∨ upper = "COST_TOTAL" then
    some (.ratV line_value)
  else if upper = "IS_PROD" ∨ upper = "ISPROD" then some (.intV 1)
  else if upper = "NR_POZ" ∨ upper = "POZITIE" ∨ upper = "NR_LINIE" ∨ upper = "LINIE" then
    some (.intV line_no)
  else if strContains upper "COD" then some (.strV produs.cod_articol_db)
  else if strContains upper "GEST" then some (.strV "Gestiunea 1")
  else if (strContains upper "DEN" && strContains upper "TIP") || strContains upper "MATER" then
    some (.strV "Materii prime")
  else if upper = "DENUMIRE_ARTICOL" ∨ upper = "NUME_ARTICOL" then some (.strV produs_denumire)
  else if upper = "UNITATE_DE_MASURA" ∨ upper = "U_M" then some (.strV produs_um)
  else if strContains upper "CANT" || upper = "QTY" then some (.ratV qty_consum)
  else if strStartsWith upper "PRET" then some (.ratV unit_price)
  else if strContains upper "VAL" || strContains upper "COST" then some (.ratV line_value)
  else if strContains upper "PROD" && strContains upper "IS" then some (.intV 1)
  else if strEndsWith upper "ID_U" ∨ upper = "ID_U" then bon_det_id_u.map DVal.intV
  else none

/-- The per-row column plan: the matched `(column, value)` pairs in table
order, and the required columns that could not be mapped. -/
structure ColumnPlan where
  columns : List (String × DVal)
  missing_required : List String
  deriving Repr, DecidableEq

/-- The per-column resolution loop shared by `_insert_bon_det_rows` and
`_insert_pred_det_rows`: use the name-matching policy, fall back to a
type-appropriate default for required columns, omit unresolved optional
columns, and record unresolved required columns. -/
def resolveInsertColumns (mapping : String → Option DVal) (pachet : PachetInput) :
    List FieldInfo → ColumnPlan
  | [] => ⟨[], []⟩
  | field :: rest =>
    let value :=
      match mapping field.name with
      | some v => some v
      | none =>
        if field.required then default_value_for_field_type field.field_type pachet else none
    let plan := resolveInsertColumns mapping pachet rest
    match value with
    | none =>
      if field.required then ⟨plan.columns, field.name :: plan.missing_required⟩ else plan
    | some v => ⟨(field.name, v) :: plan.columns, plan.missing_required⟩

/-- Error text for a `BON_DET` line with unmappable required columns. -/
def bonDetMissingMsg (line_no : Nat) (missing_list : String) : String :=
  "Cannot insert BON_DET line " ++ toString line_no ++
    ". Missing required mapped columns: " ++ missing_list

/-- Error text for a `PRED_DET` insert with unmappable required columns. -/
def predDetMissingMsg (missing_list : String) : String :=
  "Cannot insert into PRED_DET. Missing required mapped columns: " ++ missing_list

/-- The result record of `_insert_bon_det_rows`. -/
structure BonDetResult where
  inserted : Nat
  id_u_start : Option Int
  id_u_end : Option Int
  deriving Repr, DecidableEq

/-- The column plan of one `BON_DET` consumption line: the signed consumed
quantity, the quantized unit price and the signed line value feed the
name-matching policy, then the shared per-column resolution runs over the
insertable columns. -/
def bonDetLinePlan (fields : List FieldInfo) (pachet : PachetInput) (produs : ProdusInput)
    (miscari_doc_id nr_doc : Int) (line_no : Nat) (current_id_u : Option Int)
    (is_storno : Bool) (produs_denumire produs_um : String) : ColumnPlan :=
  let qty_consum : Rat := if is_storno then |produs.cantitate| else -|produs.cantitate|
  let qty_abs : Rat := |produs.cantitate|
  let line_value_sign : Rat := if 0 ≤ qty_consum then 1 else -1
  let line_value := line_value_sign * |produs.val_produse|
  let unit_price : Rat :=
    if qty_abs ≠ 0 then quantizeMoney (|produs.val_produse| / qty_abs) else 0
  resolveInsertColumns
    (fun name => bon_det_field_value name pachet produs miscari_doc_id nr_doc line_no
      current_id_u qty_consum unit_price line_value produs_denumire produs_um)
    pachet fields

/-- The per-line loop of `_insert_bon_det_rows`: one `BON_DET` row per
consumption line, threading the optional `ID_U` counter.  Returns the
number of rows inserted and the final counter.  (The source caches the
article lookups per code; the lookups are pure reads, so the cache is
observationally transparent and omitted here.) -/
def insertBonDetLines (fields : List FieldInfo) (pachet : PachetInput)
    (miscari_doc_id nr_doc : Int) (is_storno : Bool) :
    List ProdusInput → Nat → Option Int → DB → Except PError (Nat × Option Int) × DB
  | [], _, next_id_u, db => (.ok (0, next_id_u), db)
  | produs :: rest, line_no, next_id_u, db =>
    match get_articol_consum_details db produs.cod_articol_db with
    | .error e => (.error e, db)
    | .ok (produs_denumire, produs_um) =>
      let current_id_u := next_id_u
      let bumped_id_u := next_id_u.map (fun n => n + 1)
      let plan := bonDetLinePlan fields pachet produs miscari_doc_id nr_doc line_no
        current_id_u is_storno produs_denumire produs_um
      if plan.missing_required ≠ [] then
        (.error (.runtimeError (bonDetMissingMsg line_no (joinSorted plan.missing_required))), db)
      else if plan.columns = [] then
        (.error (.runtimeError ("Cannot insert BON_DET line " ++ toString line_no ++
          ". No compatible columns were mapped.")), db)
      else
        let db1 := { db with bonDet := db.bonDet ++ [plan.columns] }
        match insertBonDetLines fields pachet miscari_doc_id nr_doc is_storno rest
            (line_no + 1) bumped_id_u db1 with
        | (.error e, db2) => (.error e, db2)
        | (.ok (n, idu), db2) => (.ok (n + 1, idu), db2)

/-- `_insert_bon_det_rows`: introspect `BON_DET`, then insert one
dynamically-shaped row per consumption line. -/
def insert_bon_det_rows (db : DB) (request : ProducePachetInput)
    (miscari_doc_id nr_doc : Int) : Except PError BonDetResult × DB :=
  let fields := get_relation_fields db "BON_DET"
  if fields = [] then
    (.error (.runtimeError
      "Cannot insert BON_DET rows: table BON_DET has no readable columns in current schema."), db)
  else
    let insertable_fields := fields.filter (fun f => !f.identity)
    if insertable_fields = [] then
      (.error (.runtimeError "Cannot insert BON_DET rows: no writable BON_DET columns were found."),
        db)
    else
      let has_id_u_column := insertable_fields.any (fun f => pyUpper f.name == "ID_U")
      let next_id_u : Option Int :=
        if has_id_u_column then some (get_next_bon_det_id_u db) else none
      let id_u_start := next_id_u
      let pachet := request.pachet
      let is_storno := decide (operation_sign pachet < 0)
      match insertBonDetLines insertable_fields pachet miscari_doc_id nr_doc is_storno
          request.produse 1 next_id_u db with
      | (.error e, db1) => (.error e, db1)
      | (.ok (n, final_id_u), db1) =>
        (.ok { inserted := n, id_u_start := id_u_start,
               id_u_end := final_id_u.map (fun k => k - 1) }, db1)

/-- The column plan of the single `PRED_DET` production summary row. -/
def predDetPlan (fields : List FieldInfo) (pachet : PachetInput) (first_produs : ProdusInput)
    (cod_pachet_db : String) (miscari_doc_id nr_doc : Int) (pred_det_nr : Option Int) :
    ColumnPlan :=
  resolveInsertColumns
    (fun name => pred_det_field_value name pachet first_produs cod_pachet_db
      miscari_doc_id nr_doc pred_det_nr 1)
    pachet fields

/-- `_insert_pred_det_rows`: introspect `PRED_DET` and insert the single
production summary row (0 rows when the table has no writable columns). -/
def insert_pred_det_rows (db : DB) (request : ProducePachetInput) (cod_pachet_db : String)
    (miscari_doc_id nr_doc : Int) : Except PError Nat × DB :=
  let fields := get_relation_fields db "PRED_DET"
  if fields = [] then (.ok 0, db)
  else
    let insertable_fields := fields.filter (fun f => !f.identity)
    if insertable_fields = [] then (.ok 0, db)
    else
      let pachet := request.pachet
      match request.produse.head? with
      | none => (.error (.runtimeError "produse list is empty (IndexError)."), db)
      | some first_produs =>
        let has_nr_column := insertable_fields.any (fun f => pyUpper f.name == "NR")
        let pred_det_nr : Option Int :=
          if has_nr_column then some (get_next_pred_det_nr db) else none
        let plan := predDetPlan insertable_fields pachet first_produs cod_pachet_db
          miscari_doc_id nr_doc pred_det_nr
        if plan.missing_required ≠ [] then
          (.error (.runtimeError (predDetMissingMsg (joinSorted plan.missing_required))), db)
        else if plan.columns = [] then
          (.error (.runtimeError "Cannot insert into PRED_DET. No compatible columns were mapped."),
            db)
        else
          (.ok 1, { db with predDet := db.predDet ++ [plan.columns] })

/-! ### `_execute_produce_pachet_once` -/

/-- The result record returned by the service. -/
structure ProduceResult where
  success : Bool
  message : String
  codPachet : String
  nrDoc : Int
  idDoc : Int
  miscariId : Int
  bonDetInserted : Nat
  predDetInserted : Nat
  alreadyImported : Bool
  idUStart : Option Int
  idUEnd : Option Int
  bonDetIdUStart : Option Int
  bonDetIdUEnd : Option Int
  deriving Repr, DecidableEq

/-- The result returned when the document was already imported. -/
def alreadyImportedResult (pachet : PachetInput) (existing : ExistingDoc)
    (cod : String) : ProduceResult :=
  { success := true, message := "producePachet skipped: document already imported.",
    codPachet := trim_db_char cod, nrDoc := existing.nr_doc, idDoc := pachet.id_doc,
    miscariId := existing.miscari_id, bonDetInserted := 0, predDetInserted := 0,
    alreadyImported := true, idUStart := none, idUEnd := none,
    bonDetIdUStart := none, bonDetIdUEnd := none }

/-- One consumption (`BC`) `MISCARI` row as inserted by the write phase:
the quantity is the material quantity with the opposite sign of the
operation (negative consumption on normal production, positive on storno).
`PRET` is never set on consumption rows. -/
def bcRow (pachet : PachetInput) (produs : ProdusInput) (miscari_doc_id nr_doc : Int)
    (id_u : Option Int) : MiscariRow :=
  { id := miscari_doc_id, id_u := id_u, data := pachet.data, nr_doc := nr_doc,
    tip_doc := "BC", cod_art := produs.cod_articol_db,
    cantitate := if operation_sign pachet < 0 then |produs.cantitate| else -|produs.cantitate|,
    gestiune := pachet.gestiune, pret := none }

/-- The production (`BP`) `MISCARI` row: the produced quantity with the
operation sign, and the sale price when the deployed schema has `PRET`. -/
def bpRow (pachet : PachetInput) (cod_pachet_db : String) (miscari_doc_id nr_doc : Int)
    (id_u : Option Int) (has_pret : Bool) : MiscariRow :=
  { id := miscari_doc_id, id_u := id_u, data := pachet.data, nr_doc := nr_doc,
    tip_doc := "BP", cod_art := cod_pachet_db,
    cantitate :=
      if operation_sign pachet < 0 then -|pachet.cantitate_produsa| else |pachet.cantitate_produsa|,
    gestiune := pachet.gestiune, pret := if has_pret then some pachet.pret_vanz else none }

/-- The `BC` insert loop: one row per material, threading the optional
`ID_U` counter (incremented once per inserted row). -/
def mkBcRows (pachet : PachetInput) (miscari_doc_id nr_doc : Int) :
    List ProdusInput → Option Int → List MiscariRow × Option Int
  | [], next_id_u => ([], next_id_u)
  | produs :: rest, next_id_u =>
    let (rows, final) :=
      mkBcRows pachet miscari_doc_id nr_doc rest (next_id_u.map (fun n => n + 1))
    (bcRow pachet produs miscari_doc_id nr_doc next_id_u :: rows, final)

/-- All `MISCARI` rows inserted by one write phase: the `BC` rows in
material order, then the `BP` row. -/
def newMiscariRows (pachet : PachetInput) (produse : List ProdusInput)
    (miscari_doc_id nr_doc : Int) (next_id_u : Option Int) (has_pret : Bool)
    (cod_pachet_db : String) : List MiscariRow :=
  let (bc_rows, id_u_after_bc) := mkBcRows pachet miscari_doc_id nr_doc produse next_id_u
  bc_rows ++ [bpRow pachet cod_pachet_db miscari_doc_id nr_doc id_u_after_bc has_pret]

/-- `_execute_produce_pachet_once`: the body of one transaction attempt.
Returns the result and the state as mutated so far (a failing attempt is
rolled back by the orchestrator, which discards the returned state). -/
def run_execute_produce_pachet_once (request : ProducePachetInput) (db : DB) :
    Except PError ProduceResult × DB :=
  let pachet := request.pachet
  let is_storno := decide (operation_sign pachet < 0)
  match find_existing_document db pachet with
  | .error e => (.error e, db)
  | .ok (some existing) =>
    if existing.cod_pachet_db = "" then
      match ensurePachetInArticole db pachet true with
      | (.error e, db1) => (.error e, db1)
      | (.ok cod, db1) => (.ok (alreadyImportedResult pachet existing cod), db1)
    else
      (.ok (alreadyImportedResult pachet existing existing.cod_pachet_db), db)
  | .ok none =>
    match ensurePachetInArticole db pachet (!is_storno) with
    | (.error e, db1) => (.error e, db1)
    | (.ok cod_pachet_db, db1) =>
      let miscari_doc_id := get_next_miscari_id db1
      let nr_doc := getNextNrDoc db1 pachet.data
      let miscari_has_pret := db1.schema.miscariHasPret
      let miscari_has_id_u := db1.schema.miscariHasIdU
      let next_id_u : Option Int :=
        if miscari_has_id_u then some (get_next_miscari_id_u db1) else none
      let id_u_start := next_id_u
      let id_u_after_bp :=
        ((mkBcRows pachet miscari_doc_id nr_doc request.produse next_id_u).2).map (fun n => n + 1)
      let db2 := { db1 with miscari := db1.miscari ++
        (newMiscariRows pachet request.produse miscari_doc_id nr_doc next_id_u
          miscari_has_pret cod_pachet_db) }
      match insert_bon_det_rows db2 request miscari_doc_id nr_doc with
      | (.error e, db3) => (.error e, db3)
      | (.ok bon_det_result, db3) =>
        match insert_pred_det_rows db3 request cod_pachet_db miscari_doc_id nr_doc with
        | (.error e, db4) => (.error e, db4)
        | (.ok pred_det_inserted, db4) =>
          (.ok { success := true, message := "producePachet executed successfully.",
                 codPachet := trim_db_char cod_pachet_db, nrDoc := nr_doc,
                 idDoc := pachet.id_doc, miscariId := miscari_doc_id,
                 bonDetInserted := bon_det_result.inserted,
                 predDetInserted := pred_det_inserted, alreadyImported := false,
                 idUStart := id_u_start, idUEnd := id_u_after_bp.map (fun n => n - 1),
                 bonDetIdUStart := bon_det_result.id_u_start,
                 bonDetIdUEnd := bon_det_result.id_u_end }, db4)

/-! ### `producePachet`: the transaction orchestrator

The `for attempt in range(2)` loop of the source is embedded twice:

* `producePachetWith` abstracts one attempt by an oracle giving the outcome
  of the attempt body (execute + commit), which is how the control flow
  reacts to arbitrary driver failures (including uniqueness races that the
  deterministic single-transaction model cannot produce itself);
* `producePachet` instantiates the oracle with the deterministic model
  `run_execute_produce_pachet_once`, with rollback restoring the initial
  state between attempts.

Connection lifecycle events are recorded in order. -/

inductive OrchEvent where
  | connect
  | commit
  | rollback
  | close
  deriving Repr, DecidableEq

/-- The connection events of one attempt: connect, then commit on success
or rollback on failure, then close (the `finally` block). -/
def attemptEvents (outcome : Except PError ProduceResult) : List OrchEvent :=
  match outcome with
  | .ok _ => [.connect, .commit, .close]
  | .error _ => [.connect, .rollback, .close]

/-- `producePachet` with the attempt body abstracted by an oracle:
validate first, then at most two attempts, the second only after a
uniqueness-classified failure of the first. -/
def producePachetWith (payload : RawPayload)
    (oracle : Nat → Except PError ProduceResult) :
    Except PError ProduceResult × List OrchEvent :=
  match validate_produce_pachet_input payload with
  | .error e => (.error e, [])
  | .ok _ =>
    match oracle 0 with
    | .ok r => (.ok r, attemptEvents (.ok r))
    | .error e0 =>
      if is_unique_violation e0 then
        (oracle 1, attemptEvents (.error e0) ++ attemptEvents (oracle 1))
      else
        (.error e0, attemptEvents (.error e0))

/-- `producePachet` over the deterministic database model: a failing
attempt rolls the state back to the input state. -/
def producePachet (payload : RawPayload) (db : DB) :
    Except PError ProduceResult × DB × List OrchEvent :=
  match validate_produce_pachet_input payload with
  | .error e => (.error e, db, [])
  | .ok request =>
    match run_execute_produce_pachet_once request db with
    | (.ok result, db1) => (.ok result, db1, [.connect, .commit, .close])
    | (.error e0, _) =>
      if is_unique_violation e0 then
        match run_execute_produce_pachet_once request db with
        | (.ok result, db1) =>
          (.ok result, db1, [.connect, .rollback, .close, .connect, .commit, .close])
        | (.error e1, _) =>
          (.error e1, db, [.connect, .rollback, .close, .connect, .rollback, .close])
      else
        (.error e0, db, [.connect, .rollback, .close])

/-! ### Concrete fixtures used by the claim witnesses -/

/-- A deployed schema: `MISCARI` has both optional columns, `BON_DET` has a
single required `NR_DOC` column, `PRED_DET` records `ID_DOC` and `NR_DOC`. -/
def exampleSchema : Schema :=
  { miscariHasPret := true, miscariHasIdU := true,
    bonDetCatalog := [⟨"NR_DOC", 1, false, -1, 8⟩],
    predDetCatalog := [⟨"ID_DOC", 1, false, -1, 8⟩, ⟨"NR_DOC", 1, false, -1, 8⟩] }

/-- The raw-material article present in the catalog. -/
def exampleMaterial : ArticolRow :=
  { cod := "00000007        ", denumire := "Material", um := "KG", tva := 21,
    den_tip := "Materii prime", tip := "01" }

/-- An empty ledger with the material article in place. -/
def exampleDb : DB :=
  { articole := [exampleMaterial], miscari := [], bonDet := [], predDet := [],
    schema := exampleSchema }

def examplePachet : PachetInput :=
  { id_doc := 5, data := 100, denumire := "Pachet Test", pret_vanz := 10, cota_tva := 21,
    cost_total := 4, gestiune := "GEST1", cantitate_produsa := 2, status := "pending" }

def exampleProdus : ProdusInput :=
  { cod_articol_raw := "7", cod_articol_db := "00000007        ", cantitate := 1,
    val_produse := 4 }

def exampleReq : ProducePachetInput := { pachet := examplePachet, produse := [exampleProdus] }

/-- The same request on another calendar date with a fresh external id. -/
def exampleReqOtherDate : ProducePachetInput :=
  { pachet := { examplePachet with id_doc := 6, data := 200 }, produse := [exampleProdus] }

/-- A second request on the same date with a fresh external id. -/
def exampleReqSameDate : ProducePachetInput :=
  { pachet := { examplePachet with id_doc := 6 }, produse := [exampleProdus] }

/-- The payload that validates to `exampleReq`. -/
def examplePayload : RawPayload :=
  { pachet := { id_doc := 5, data := 100, denumire := "Pachet Test", pret_vanz := 10,
                cota_tva := 21, cost_total := 4, gestiune := "GEST1", cantitate_produsa := 2,
                status := "Pending " },
    produse := [{ cantitate := 1, val_produse := 4, cod_articol := "7" }] }

/-- The payload with a total cost that does not match the material values. -/
def examplePayloadBadSum : RawPayload :=
  { examplePayload with pachet := { examplePayload.pachet with cost_total := 5 } }

/-- A payload that fails validation (empty `produse`). -/
def examplePayloadInvalid : RawPayload :=
  { pachet := examplePayload.pachet, produse := [] }

/-- A ledger that already contains the fully imported document nr 3 of
`(id_doc := 5, data := 100)`. -/
def completeDb : DB :=
  { exampleDb with
    miscari :=
      [{ id := 1, id_u := some 1, data := 100, nr_doc := 3, tip_doc := "BC",
         cod_art := "00000007        ", cantitate := -1, gestiune := "GEST1", pret := none },
       { id := 1, id_u := some 2, data := 100, nr_doc := 3, tip_doc := "BP",
         cod_art := "00000008        ", cantitate := 2, gestiune := "GEST1", pret := some 10 }],
    predDet := [[("ID_DOC", .intV 5), ("NR_DOC", .intV 3)]] }

/-- A ledger with a partial import: the consumption row of document nr 3
exists but the production row is missing. -/
def partialDb : DB :=
  { exampleDb with
    miscari :=
      [{ id := 1, id_u := some 1, data := 100, nr_doc := 3, tip_doc := "BC",
         cod_art := "00000007        ", cantitate := -1, gestiune := "GEST1", pret := none }],
    predDet := [[("ID_DOC", .intV 5), ("NR_DOC", .intV 3)]] }

/-! ### Supporting lemmas -/

/-- Sanity check: the kernel-friendly floor agrees with `Int.floor`. -/
theorem ratFloor_eq_floor (q : Rat) : ratFloor q = ⌊q⌋ :=
  Rat.floor_def.symm



theorem insertBonDetLines_state (fields : List FieldInfo) (pachet : PachetInput)
    (docId nrDoc : Int) (st : Bool) :
    ∀ (produse : List ProdusInput) (line : Nat) (idu : Option Int) (db : DB)
      (r : Except PError (Nat × Option Int)) (db1 : DB),
      insertBonDetLines fields pachet docId nrDoc st produse line idu db = (r, db1) →
      db1.articole = db.articole ∧ db1.miscari = db.miscari ∧ db1.predDet = db.predDet
      ∧ db1.schema = db.schema := by
  intro produse
  induction produse with
  | nil =>
    intro line idu db r db1 h
    unfold insertBonDetLines at h
    injection h with h1 h2
    subst h2
    exact ⟨rfl, rfl, rfl, rfl⟩
  | cons p rest ih =>
    intro line idu db r db1 h
    unfold insertBonDetLines at h
    dsimp only [] at h
    split at h
    · injection h with h1 h2
      subst h2
      exact ⟨rfl, rfl, rfl, rfl⟩
    · split at h
      · injection h with h1 h2
        subst h2
        exact ⟨rfl, rfl, rfl, rfl⟩
      · split at h
        · injection h with h1 h2
          subst h2
          exact ⟨rfl, rfl, rfl, rfl⟩
        · split at h
          · injection h with h1 h2
            subst h2
            rename_i heq
            have := ih _ _ _ _ _ heq
            simpa using this
          · injection h with h1 h2
            subst h2
            rename_i heq
            have := ih _ _ _ _ _ heq
            simpa using this



theorem insert_bon_det_rows_state {db : DB} {request : ProducePachetInput}
    {docId nrDoc : Int} {r : Except PError BonDetResult} {db1 : DB}
    (h : insert_bon_det_rows db request docId nrDoc = (r, db1)) :
    db1.articole = db.articole ∧ db1.miscari = db.miscari ∧ db1.predDet = db.predDet
    ∧ db1.schema = db.schema := by
  unfold insert_bon_det_rows at h
  dsimp only [] at h
  repeat' split at h
  all_goals injection h with h1 h2
  all_goals subst h2
  all_goals
    first
    | exact ⟨rfl, rfl, rfl, rfl⟩
    | exact insertBonDetLines_state _ _ _ _ _ _ _ _ _ _ _ (by assumption)

theorem insert_pred_det_rows_state {db : DB} {request : ProducePachetInput} {cod : String}
    {docId nrDoc : Int} {r : Except PError Nat} {db1 : DB}
    (h : insert_pred_det_rows db request cod docId nrDoc = (r, db1)) :
    db1.articole = db.articole ∧ db1.miscari = db.miscari ∧ db1.bonDet = db.bonDet
    ∧ db1.schema = db.schema := by
  unfold insert_pred_det_rows at h
  dsimp only [] at h
  repeat' split at h
  all_goals injection h with h1 h2
  all_goals subst h2
  all_goals exact ⟨rfl, rfl, rfl, rfl⟩

theorem ensurePachet_state {db : DB} {pachet : PachetInput} {ac : Bool}
    {r : Except PError String} {db1 : DB}
    (h : ensurePachetInArticole db pachet ac = (r, db1)) :
    db1.miscari = db.miscari ∧ db1.bonDet = db.bonDet ∧ db1.predDet = db.predDet
    ∧ db1.schema = db.schema := by
  unfold ensurePachetInArticole at h
  dsimp only [] at h
  repeat' split at h
  all_goals injection h with h1 h2
  all_goals subst h2
  all_goals exact ⟨rfl, rfl, rfl, rfl⟩



theorem string_eq_empty_iff (s : String) : s = "" ↔ s.data = [] := by
  cases s with
  | mk d =>
    constructor
    · intro h
      rw [h]
    · intro h
      change d = [] at h
      rw [h]

theorem codFromBpRow_ne_empty {c : String} (h : c ≠ "") : codFromBpRow c ≠ "" := by
  have hd : c.data ≠ [] := fun hn => h ((string_eq_empty_iff c).mpr hn)
  unfold codFromBpRow
  by_cases h16 : c ≠ "" ∧ c.data.length < 16
  · rw [if_pos h16]
    have hc2 : (ljust (pyStrip c) 16) ≠ "" := by
      intro hemp
      have hnil := (string_eq_empty_iff _).mp hemp
      have hlen := congrArg List.length hnil
      simp only [ljust, List.length_append, List.length_replicate, List.length_nil] at hlen
      omega
    rw [if_pos hc2]
    intro hemp
    have htake := (string_eq_empty_iff _).mp hemp
    simp only [strTake] at htake
    change (ljust (pyStrip c) 16).data.take 16 = [] at htake
    rcases List.take_eq_nil_iff.mp htake with h0 | hn
    · exact absurd h0 (by omega)
    · exact hc2 ((string_eq_empty_iff _).mpr hn)
  · rw [if_neg h16, if_pos h]
    intro hemp
    have htake := (string_eq_empty_iff _).mp hemp
    change c.data.take 16 = [] at htake
    rcases List.take_eq_nil_iff.mp htake with h0 | hn
    · exact absurd h0 (by omega)
    · exact hd hn

theorem sqlMax_ge_of_mem {l : List Int} {a : Int} (h : a ∈ l) :
    ∃ m, sqlMax l = some m ∧ a ≤ m := by
  induction l with
  | nil => cases h
  | cons x xs ih =>
    rcases List.mem_cons.mp h with rfl | hx
    · cases hs : sqlMax xs with
      | none => exact ⟨a, by simp [sqlMax, hs], le_refl a⟩
      | some m => exact ⟨max a m, by simp [sqlMax, hs], le_max_left a m⟩
    · obtain ⟨m, hm, ham⟩ := ih hx
      exact ⟨max x m, by simp [sqlMax, hm], le_trans ham (le_max_right x m)⟩

theorem maxNrDocBp_ge {db : DB} {d : Date} {r : MiscariRow} (hr : r ∈ db.miscari)
    (hd : r.data = d) (ht : r.tip_doc = "BP") : r.nr_doc ≤ maxNrDocBp db d := by
  have hf : r ∈ db.miscari.filter (fun r => r.data == d && r.tip_doc == "BP") := by
    rw [List.mem_filter]
    refine ⟨hr, ?_⟩
    simp [hd, ht]
  have hm : r.nr_doc ∈ (db.miscari.filter
      (fun r => r.data == d && r.tip_doc == "BP")).map (fun r => r.nr_doc) :=
    List.mem_map_of_mem _ hf
  obtain ⟨m, hm', ham⟩ := sqlMax_ge_of_mem hm
  rw [maxNrDocBp, hm']
  exact ham



theorem getNextNrDoc_congr {db1 db2 : DB} (h : db1.miscari = db2.miscari) (d : Date) :
    getNextNrDoc db1 d = getNextNrDoc db2 d := by
  unfold getNextNrDoc maxNrDocBp
  rw [h]

theorem get_next_miscari_id_congr {db1 db2 : DB} (h : db1.miscari = db2.miscari) :
    get_next_miscari_id db1 = get_next_miscari_id db2 := by
  unfold get_next_miscari_id
  rw [h]

theorem get_next_miscari_id_u_congr {db1 db2 : DB} (h : db1.miscari = db2.miscari) :
    get_next_miscari_id_u db1 = get_next_miscari_id_u db2 := by
  unfold get_next_miscari_id_u
  rw [h]

theorem run_ok_not_imported {request : ProducePachetInput} {db : DB} {res : ProduceResult}
    {db' : DB}
    (hrun : run_execute_produce_pachet_once request db = (.ok res, db'))
    (hni : res.alreadyImported = false) :
    ∃ cod,
      res.nrDoc = getNextNrDoc db request.pachet.data
      ∧ db'.miscari = db.miscari ++
          newMiscariRows request.pachet request.produse (get_next_miscari_id db) res.nrDoc
            (if db.schema.miscariHasIdU then some (get_next_miscari_id_u db) else none)
            db.schema.miscariHasPret cod := by
  unfold run_execute_produce_pachet_once at hrun
  dsimp only [] at hrun
  split at hrun
  · injection hrun with h1 h2
    exact Except.noConfusion h1
  · split at hrun
    · split at hrun
      · injection hrun with h1 h2
        exact Except.noConfusion h1
      · injection hrun with h1 h2
        injection h1 with h3
        rw [← h3] at hni
        simp [alreadyImportedResult] at hni
    · injection hrun with h1 h2
      injection h1 with h3
      rw [← h3] at hni
      simp [alreadyImportedResult] at hni
  · split at hrun
    · injection hrun with h1 h2
      exact Except.noConfusion h1
    · rename_i cod db1 hens
      split at hrun
      · injection hrun with h1 h2
        exact Except.noConfusion h1
      · rename_i bd db3 hbon
        split at hrun
        · injection hrun with h1 h2
          exact Except.noConfusion h1
        · rename_i pd db4 hpred
          injection hrun with h1 h2
          injection h1 with h3
          subst h2
          subst h3
          obtain ⟨hens_a, hens_m, _, hens_s⟩ :
              db1.miscari = db.miscari ∧ db1.bonDet = db.bonDet ∧ db1.predDet = db.predDet
              ∧ db1.schema = db.schema := ensurePachet_state hens
          obtain ⟨_, hbon_m, _, _⟩ := insert_bon_det_rows_state hbon
          obtain ⟨_, hpred_m, _, _⟩ := insert_pred_det_rows_state hpred
          refine ⟨cod, ?_, ?_⟩
          · exact getNextNrDoc_congr hens_a request.pachet.data
          · rw [hpred_m, hbon_m]
            dsimp only []
            rw [hens_a, hens_s]
            rw [get_next_miscari_id_congr hens_a, get_next_miscari_id_u_congr hens_a,
              getNextNrDoc_congr hens_a]




theorem mkBcRows_length (pachet : PachetInput) (docId nrDoc : Int) :
    ∀ (produse : List ProdusInput) (idu : Option Int),
      (mkBcRows pachet docId nrDoc produse idu).1.length = produse.length := by
  intro produse
  induction produse with
  | nil => intro idu; rfl
  | cons p rest ih =>
    intro idu
    unfold mkBcRows
    dsimp only []
    simp [ih]

theorem mkBcRows_zip (pachet : PachetInput) (docId nrDoc : Int) :
    ∀ (produse : List ProdusInput) (idu : Option Int) (pr : MiscariRow × ProdusInput),
      pr ∈ (mkBcRows pachet docId nrDoc produse idu).1.zip produse →
      pr.1.tip_doc = "BC" ∧ pr.1.data = pachet.data
      ∧ pr.1.cantitate =
          (if operation_sign pachet < 0 then |pr.2.cantitate| else -|pr.2.cantitate|) := by
  intro produse
  induction produse with
  | nil => intro idu pr hpr; cases hpr
  | cons p rest ih =>
    intro idu pr hpr
    unfold mkBcRows at hpr
    dsimp only [] at hpr
    rw [List.zip_cons_cons] at hpr
    rcases List.mem_cons.mp hpr with rfl | htail
    · exact ⟨rfl, rfl, rfl⟩
    · exact ih (idu.map (fun n => n + 1)) pr htail

theorem mem_zip_of_mem_left {α β : Type} :
    ∀ {l1 : List α} {l2 : List β} {a : α},
      l1.length = l2.length → a ∈ l1 → ∃ b, (a, b) ∈ l1.zip l2 := by
  intro l1
  induction l1 with
  | nil => intro l2 a _ ha; cases ha
  | cons x xs ih =>
    intro l2 a hlen ha
    cases l2 with
    | nil => simp at hlen
    | cons y ys =>
      rcases List.mem_cons.mp ha with rfl | hx
      · exact ⟨y, by rw [List.zip_cons_cons]; exact List.mem_cons_self _ _⟩
      · obtain ⟨b, hb⟩ := ih (by simpa using hlen) hx
        exact ⟨b, by rw [List.zip_cons_cons]; exact List.mem_cons_of_mem _ hb⟩



theorem find_existing_complete {db : DB} {pachet : PachetInput} {nr : Int} {brow : MiscariRow}
    (h1 : predRowLookup db pachet.id_doc = some nr) (h2 : 0 < nr)
    (h3 : 0 < bcCountFor db pachet.data nr) (h4 : 0 < bpCountFor db pachet.data nr)
    (h5 : bpDocByDateNrDoc db pachet.data nr = some brow) :
    find_existing_document db pachet = .ok (some
      { miscari_id := brow.id, nr_doc := nr, cod_pachet_db := codFromBpRow brow.cod_art,
        bc_count := bcCountFor db pachet.data nr,
        bp_count := bpCountFor db pachet.data nr }) := by
  unfold find_existing_document
  rw [h1]
  dsimp only []
  rw [if_neg (by omega)]
  rw [if_neg (by rintro ⟨ha, hb⟩; omega)]
  rw [if_neg (by rintro (ha | hb) <;> omega)]
  rw [h5]

theorem find_existing_inconsistent {db : DB} {pachet : PachetInput} {nr : Int}
    (h1 : predRowLookup db pachet.id_doc = some nr) (h2 : 0 < nr)
    (h3 : (bcCountFor db pachet.data nr = 0 ∧ 0 < bpCountFor db pachet.data nr)
        ∨ (0 < bcCountFor db pachet.data nr ∧ bpCountFor db pachet.data nr = 0)) :
    find_existing_document db pachet = .error (.runtimeError inconsistentMsg) := by
  unfold find_existing_document
  rw [h1]
  dsimp only []
  rw [if_neg (by omega)]
  rw [if_neg (by rintro ⟨ha, hb⟩; rcases h3 with ⟨h5, h6⟩ | ⟨h5, h6⟩ <;> omega)]
  rw [if_pos (by rcases h3 with ⟨h5, h6⟩ | ⟨h5, h6⟩; exacts [Or.inl h5, Or.inr h6])]



theorem resolve_columns_names_subset (mapping : String → Option DVal) (pachet : PachetInput) :
    ∀ (fields : List FieldInfo) (c : String × DVal),
      c ∈ (resolveInsertColumns mapping pachet fields).columns →
      c.1 ∈ fields.map (fun f => f.name) := by
  intro fields
  induction fields with
  | nil => intro c hc; cases hc
  | cons g rest ih =>
    intro c hc
    unfold resolveInsertColumns at hc
    dsimp only [] at hc
    rcases hv : (match mapping g.name with
      | some v => some v
      | none => if g.required = true then default_value_for_field_type g.field_type pachet
                else none) with _ | v
    · rw [hv] at hc
      dsimp only [] at hc
      split at hc
      · exact List.mem_cons_of_mem _ (ih c hc)
      · exact List.mem_cons_of_mem _ (ih c hc)
    · rw [hv] at hc
      dsimp only [] at hc
      rcases List.mem_cons.mp hc with rfl | htail
      · exact List.mem_cons_self _ _
      · exact List.mem_cons_of_mem _ (ih c htail)

theorem resolve_missing_names_subset (mapping : String → Option DVal) (pachet : PachetInput) :
    ∀ (fields : List FieldInfo) (n : String),
      n ∈ (resolveInsertColumns mapping pachet fields).missing_required →
      n ∈ fields.map (fun f => f.name) := by
  intro fields
  induction fields with
  | nil => intro n hn; cases hn
  | cons g rest ih =>
    intro n hn
    unfold resolveInsertColumns at hn
    dsimp only [] at hn
    rcases hv : (match mapping g.name with
      | some v => some v
      | none => if g.required = true then default_value_for_field_type g.field_type pachet
                else none) with _ | v
    · rw [hv] at hn
      dsimp only [] at hn
      split at hn
      · rcases List.mem_cons.mp hn with rfl | htail
        · exact List.mem_cons_self _ _
        · exact List.mem_cons_of_mem _ (ih n htail)
      · exact List.mem_cons_of_mem _ (ih n hn)
    · rw [hv] at hn
      dsimp only [] at hn
      exact List.mem_cons_of_mem _ (ih n hn)

theorem resolve_required_default_mem (mapping : String → Option DVal) (pachet : PachetInput) :
    ∀ (fields : List FieldInfo) (f : FieldInfo), f ∈ fields → mapping f.name = none →
      f.required = true →
      ∀ v, default_value_for_field_type f.field_type pachet = some v →
      (f.name, v) ∈ (resolveInsertColumns mapping pachet fields).columns := by
  intro fields
  induction fields with
  | nil => intro f hf; cases hf
  | cons g rest ih =>
    intro f hf hm hr v hd
    unfold resolveInsertColumns
    dsimp only []
    rcases List.mem_cons.mp hf with rfl | htail
    · rw [hm, if_pos hr, hd]
      exact List.mem_cons_self _ _
    · rcases hv : (match mapping g.name with
        | some w => some w
        | none => if g.required = true then default_value_for_field_type g.field_type pachet
                  else none) with _ | w
      · rw [hv]
        dsimp only []
        split
        · exact ih f htail hm hr v hd
        · exact ih f htail hm hr v hd
      · rw [hv]
        exact List.mem_cons_of_mem _ (ih f htail hm hr v hd)

theorem resolve_required_nodefault_missing (mapping : String → Option DVal)
    (pachet : PachetInput) :
    ∀ (fields : List FieldInfo) (f : FieldInfo), f ∈ fields → mapping f.name = none →
      f.required = true →
      default_value_for_field_type f.field_type pachet = none →
      f.name ∈ (resolveInsertColumns mapping pachet fields).missing_required := by
  intro fields
  induction fields with
  | nil => intro f hf; cases hf
  | cons g rest ih =>
    intro f hf hm hr hd
    unfold resolveInsertColumns
    dsimp only []
    rcases List.mem_cons.mp hf with rfl | htail
    · rw [hm, if_pos hr, hd]
      dsimp only []
      rw [if_pos hr]
      exact List.mem_cons_self _ _
    · rcases hv : (match mapping g.name with
        | some w => some w
        | none => if g.required = true then default_value_for_field_type g.field_type pachet
                  else none) with _ | w
      · rw [hv]
        dsimp only []
        split
        · exact List.mem_cons_of_mem _ (ih f htail hm hr hd)
        · exact ih f htail hm hr hd
      · rw [hv]
        exact ih f htail hm hr hd

theorem resolve_optional_omitted (mapping : String → Option DVal) (pachet : PachetInput) :
    ∀ (fields : List FieldInfo) (f : FieldInfo),
      (fields.map (fun g => g.name)).Nodup → f ∈ fields → mapping f.name = none →
      f.required = false →
      f.name ∉ (resolveInsertColumns mapping pachet fields).columns.map Prod.fst
      ∧ f.name ∉ (resolveInsertColumns mapping pachet fields).missing_required := by
  intro fields
  induction fields with
  | nil => intro f _ hf; cases hf
  | cons g rest ih =>
    intro f hnd hf hm hr
    have hnd' := List.nodup_cons.mp hnd
    unfold resolveInsertColumns
    dsimp only []
    rcases List.mem_cons.mp hf with rfl | htail
    · rw [hm, if_neg (by rw [hr]; exact Bool.false_ne_true)]
      dsimp only []
      rw [if_neg (by rw [hr]; exact Bool.false_ne_true)]
      constructor
      · intro hmem
        rcases List.mem_map.mp hmem with ⟨c, hc, hceq⟩
        have := resolve_columns_names_subset mapping pachet rest c hc
        rw [hceq] at this
        exact hnd'.1 this
      · intro hmem
        exact hnd'.1 (resolve_missing_names_subset mapping pachet rest _ hmem)
    · have hgf : g.name ≠ f.name := by
        intro hgeq
        have hfn : f.name ∈ List.map (fun g => g.name) rest := List.mem_map_of_mem _ htail
        rw [← hgeq] at hfn
        exact hnd'.1 hfn
      have ihr := ih f hnd'.2 htail hm hr
      rcases hv : (match mapping g.name with
        | some w => some w
        | none => if g.required = true then default_value_for_field_type g.field_type pachet
                  else none) with _ | w
      · rw [hv]
        dsimp only []
        split
        · constructor
          · exact ihr.1
          · intro hmem
            rcases List.mem_cons.mp hmem with hgn | htl
            · exact hgf hgn.symm
            · exact ihr.2 htl
        · exact ihr
      · rw [hv]
        dsimp only []
        constructor
        · intro hmem
          rw [List.map_cons] at hmem
          rcases List.mem_cons.mp hmem with h | h
          · exact hgf h.symm
          · exact ihr.1 h
        · exact ihr.2

/-! ### C6 -/

/-- C6: `normalizeCodArticol` maps "123" to the 16-character string of its
8 zero-padded digits followed by 8 spaces; it returns a 16-character input
unchanged when its first 8 characters are digits; and it fails exactly when
the input is empty (after stripping), non-numeric, longer than 8 digits
while not exactly 16 characters, or a 16-character input whose first 8
characters are not all digits. -/
theorem C6_normalizeCodArticol :
    normalizeCodArticol "123" = .ok "00000123        "
    ∧ (∀ s : String, s.data.length = 16 → pyIsDigit (strTake s 8) = true →
        normalizeCodArticol s = .ok s)
    ∧ (∀ s : String, (∃ m, normalizeCodArticol s = .error m) ↔
        (if s.data.length = 16 then pyIsDigit (strTake s 8) = false
         else pyStrip s = "" ∨ pyIsDigit (pyStrip s) = false ∨ 8 < (pyStrip s).data.length)) := by
  refine ⟨by decide, ?_, ?_⟩
  · intro s h16 hdig
    simp [normalizeCodArticol, h16, hdig]
  · intro s
    by_cases h16 : s.data.length = 16
    · have h16L : s.length = 16 := h16
      by_cases hdig : pyIsDigit (strTake s 8) = true
      · simp [normalizeCodArticol, h16, h16L, hdig]
      · have hdigF : pyIsDigit (strTake s 8) = false := by
          cases hpd : pyIsDigit (strTake s 8)
          · rfl
          · exact absurd hpd hdig
        simp [normalizeCodArticol, h16, h16L, hdigF]
    · have h16L : ¬s.length = 16 := h16
      by_cases hemp : pyStrip s = ""
      · simp [normalizeCodArticol, h16, h16L, hemp]
      · by_cases hdig : pyIsDigit (pyStrip s) = true
        · by_cases hlen : 8 < (pyStrip s).data.length
          · have hlenL : 8 < (pyStrip s).length := hlen
            simp [normalizeCodArticol, h16, h16L, hemp, hdig, hlen, hlenL]
          · have hlenL : ¬8 < (pyStrip s).length := hlen
            simp [normalizeCodArticol, h16, h16L, hemp, hdig, hlen, hlenL]
        · have hdigF : pyIsDigit (pyStrip s) = false := by
            cases hpd : pyIsDigit (pyStrip s)
            · rfl
            · exact absurd hpd hdig
          simp [normalizeCodArticol, h16, h16L, hemp, hdigF]

/-- Witness for C6 at a concrete 16-character input. -/
theorem C6_witness :
    normalizeCodArticol "1234567812345678" = .ok "1234567812345678" :=
  C6_normalizeCodArticol.2.1 "1234567812345678" (by decide) (by decide)

end Erp

namespace Erp

/-! ### C8 -/

/-- C8: validation runs before any connection is opened; a payload that
fails validation makes `producePachet` surface the validation error with no
connection event, no state change, and no retry, for every possible driver
behavior. -/
theorem C8_validation_runs_first (payload : RawPayload) (e : PError)
    (h : validate_produce_pachet_input payload = .error e) :
    (∀ oracle : Nat → Except PError ProduceResult,
      producePachetWith payload oracle = (.error e, []))
    ∧ (∀ db : DB, producePachet payload db = (.error e, db, [])) := by
  constructor
  · intro oracle
    unfold producePachetWith
    rw [h]
  · intro db
    unfold producePachet
    rw [h]

/-- Witness for C8 at a concrete invalid payload and a concrete oracle. -/
theorem C8_witness :
    producePachetWith examplePayloadInvalid (fun _ => .error (.dbError "boom")) =
      (.error (.valueError "Field produse is required and must be a non-empty array."), []) :=
  (C8_validation_runs_first examplePayloadInvalid _ (by decide)).1 _

/-! ### C3 -/

/-- C3: the orchestrator makes at most two attempts; it retries exactly
once and only after a first-attempt failure classified as a uniqueness
violation; any other first failure, and any second-attempt outcome
(including another uniqueness violation), is surfaced; every failing
attempt rolls back before its connection closes, and the number of closes
always equals the number of connects. -/
theorem C3_retry_policy (payload : RawPayload) (request : ProducePachetInput)
    (oracle : Nat → Except PError ProduceResult) (res : Except PError ProduceResult)
    (evs : List OrchEvent)
    (hv : validate_produce_pachet_input payload = .ok request)
    (hrun : producePachetWith payload oracle = (res, evs)) :
    evs.count .connect ≤ 2
    ∧ evs.count .close = evs.count .connect
    ∧ (evs.count .connect = 2 ↔ ∃ e0, oracle 0 = .error e0 ∧ is_unique_violation e0 = true)
    ∧ (∀ r, oracle 0 = .ok r → res = .ok r ∧ evs = [.connect, .commit, .close])
    ∧ (∀ e0, oracle 0 = .error e0 → is_unique_violation e0 = false →
        res = .error e0 ∧ evs = [.connect, .rollback, .close])
    ∧ (∀ e0, oracle 0 = .error e0 → is_unique_violation e0 = true →
        res = oracle 1 ∧ evs = [.connect, .rollback, .close] ++ attemptEvents (oracle 1))
    ∧ (∀ e0 e1, oracle 0 = .error e0 → is_unique_violation e0 = true →
        oracle 1 = .error e1 →
        res = .error e1
        ∧ evs = [.connect, .rollback, .close, .connect, .rollback, .close]) := by
  unfold producePachetWith at hrun
  rw [hv] at hrun
  cases h0 : oracle 0 with
  | ok r0 =>
    rw [h0] at hrun
    dsimp only [attemptEvents] at hrun
    injection hrun with h1 h2
    subst h1
    subst h2
    refine ⟨by decide, by decide, ?_, ?_, ?_, ?_, ?_⟩
    · constructor
      · intro hc
        exact absurd hc (by decide)
      · rintro ⟨e0, he0, _⟩
        exact Except.noConfusion he0
    · intro r hr
      injection hr with hr1
      exact ⟨by rw [hr1], rfl⟩
    · intro e0 he0
      exact Except.noConfusion he0
    · intro e0 he0
      exact Except.noConfusion he0
    · intro e0 e1 he0
      exact Except.noConfusion he0
  | error e0 =>
    rw [h0] at hrun
    dsimp only [] at hrun
    by_cases hu : is_unique_violation e0 = true
    · rw [if_pos hu] at hrun
      injection hrun with h1 h2
      subst h1
      subst h2
      refine ⟨?_, ?_, ?_, ?_, ?_, ?_, ?_⟩
      · cases h1' : oracle 1 <;> simp [attemptEvents, h1', List.count_cons]
      · cases h1' : oracle 1 <;> simp [attemptEvents, h1', List.count_cons]
      · constructor
        · intro _
          exact ⟨e0, rfl, hu⟩
        · intro _
          cases h1' : oracle 1 <;> simp [attemptEvents, h1', List.count_cons]
      · intro r hr
        exact Except.noConfusion hr
      · intro e0' he0 hnu
        injection he0 with he0'
        subst he0'
        rw [hu] at hnu
        exact Bool.noConfusion hnu
      · intro e0' he0 _
        exact ⟨rfl, rfl⟩
      · intro e0' e1 he0 _ he1
        rw [he1]
        exact ⟨rfl, rfl⟩
    · rw [if_neg hu] at hrun
      injection hrun with h1 h2
      subst h1
      subst h2
      dsimp only [attemptEvents]
      refine ⟨by decide, by decide, ?_, ?_, ?_, ?_, ?_⟩
      · constructor
        · intro hc
          exact absurd hc (by decide)
        · rintro ⟨e0', he0, hu'⟩
          injection he0 with he0'
          subst he0'
          exact absurd hu' hu
      · intro r hr
        exact Except.noConfusion hr
      · intro e0' he0 _
        injection he0 with he0'
        subst he0'
        exact ⟨rfl, rfl⟩
      · intro e0' he0 hu'
        injection he0 with he0'
        subst he0'
        exact absurd hu' hu
      · intro e0' e1 he0 hu' _
        injection he0 with he0'
        subst he0'
        exact absurd hu' hu

/-- Witness for C3: a valid payload with a first-attempt uniqueness
violation followed by a second failure: the error is re-raised after two
connect/rollback/close cycles. -/
theorem C3_witness :
    ((producePachetWith examplePayload
        (fun _ => .error (.dbError "violation of primary or unique key constraint"))).2.count
      OrchEvent.connect = 2) := by
  have h := C3_retry_policy examplePayload exampleReq
    (fun _ => .error (.dbError "violation of primary or unique key constraint"))
    (producePachetWith examplePayload
      (fun _ => .error (.dbError "violation of primary or unique key constraint"))).1
    (producePachetWith examplePayload
      (fun _ => .error (.dbError "violation of primary or unique key constraint"))).2
    (by with_unfolding_all rfl) rfl
  exact h.2.2.1.mpr ⟨.dbError "violation of primary or unique key constraint", rfl, by decide⟩



/-! ### C4 -/

/-- C4: for an otherwise-valid payload, the validator rejects with the
sum-consistency error exactly when the quantized material-value total
differs from the quantized total cost and their absolute values also
differ; otherwise it accepts; and when the mismatch holds, `producePachet`
surfaces the error with no connection opened and no write. -/
theorem C4_sum_consistency (payload : RawPayload) (den gest : String)
    (ps : List ProdusInput) (total : Rat)
    (h0 : payload.produse ≠ [])
    (h1 : normalize_fixed_char payload.pachet.denumire 255 = .ok den)
    (h2 : normalize_fixed_char payload.pachet.gestiune 16 = .ok gest)
    (h3 : pachetFieldChecks (mkPachet payload den gest) = .ok ())
    (h4 : validateProdusList (if 0 < payload.pachet.cantitate_produsa then 1 else -1) 1
            payload.produse = .ok (ps, total)) :
    (validate_produce_pachet_input payload = .error (.valueError costMismatchMsg)
      ↔ costMismatch total payload.pachet.cost_total)
    ∧ (validate_produce_pachet_input payload
        = .ok { pachet := mkPachet payload den gest, produse := ps }
      ↔ ¬costMismatch total payload.pachet.cost_total)
    ∧ (∀ oracle : Nat → Except PError ProduceResult,
        costMismatch total payload.pachet.cost_total →
        producePachetWith payload oracle = (.error (.valueError costMismatchMsg), [])) := by
  have hproj : (mkPachet payload den gest).cantitate_produsa
      = payload.pachet.cantitate_produsa := rfl
  have hproj2 : (mkPachet payload den gest).cost_total = payload.pachet.cost_total := rfl
  have hv : validate_produce_pachet_input payload =
      if costMismatch total payload.pachet.cost_total then
        .error (.valueError costMismatchMsg)
      else .ok { pachet := mkPachet payload den gest, produse := ps } := by
    unfold validate_produce_pachet_input
    rw [if_neg h0]
    simp only [h1, h2, h3, hproj, hproj2, h4]
  refine ⟨?_, ?_, ?_⟩
  · rw [hv]
    by_cases hm : costMismatch total payload.pachet.cost_total
    · simp [hm]
    · simp [hm]
  · rw [hv]
    by_cases hm : costMismatch total payload.pachet.cost_total
    · simp [hm]
    · simp [hm]
  · intro oracle hm
    unfold producePachetWith
    rw [hv, if_pos hm]

/-- Witness for C4 at a concrete payload whose cost does not match the
material values: validation fails with the consistency error. -/
theorem C4_witness :
    validate_produce_pachet_input examplePayloadBadSum
      = .error (.valueError costMismatchMsg) :=
  (C4_sum_consistency examplePayloadBadSum "Pachet Test" "GEST1" [exampleProdus] 4
    (by decide) (by decide) (by decide)
    (by with_unfolding_all rfl) (by with_unfolding_all rfl)).1.mpr
    (by with_unfolding_all decide)


/-! ### C2 -/

/-- C2: when the ledger holds only one of the two movement-row kinds for
the document number recorded under the external reference, the operation
fails with the inconsistent-state error, leaves the state untouched, and
the orchestrator does not retry it. -/
theorem C2_partial_state_fails (request : ProducePachetInput) (db : DB) (nr : Int)
    (h1 : predRowLookup db request.pachet.id_doc = some nr)
    (h2 : 0 < nr)
    (h3 : (bcCountFor db request.pachet.data nr = 0 ∧ 0 < bpCountFor db request.pachet.data nr)
        ∨ (0 < bcCountFor db request.pachet.data nr
            ∧ bpCountFor db request.pachet.data nr = 0)) :
    run_execute_produce_pachet_once request db
      = (.error (.runtimeError inconsistentMsg), db)
    ∧ (∀ payload, validate_produce_pachet_input payload = .ok request →
        producePachet payload db
          = (.error (.runtimeError inconsistentMsg), db, [.connect, .rollback, .close])) := by
  have hfe := find_existing_inconsistent h1 h2 h3
  have hrun : run_execute_produce_pachet_once request db
      = (.error (.runtimeError inconsistentMsg), db) := by
    unfold run_execute_produce_pachet_once
    dsimp only []
    rw [hfe]
  refine ⟨hrun, ?_⟩
  intro payload hv
  unfold producePachet
  rw [hv]
  simp only [hrun]
  rw [if_neg (by decide)]

/-- Witness for C2 on a ledger pre-seeded with only the consumption row. -/
theorem C2_witness :
    run_execute_produce_pachet_once exampleReq partialDb
      = (.error (.runtimeError inconsistentMsg), partialDb) :=
  (C2_partial_state_fails exampleReq partialDb 3 (by decide) (by decide)
    (Or.inr (by decide))).1

/-! ### C1 -/

/-- C1: when the document of `(id_doc, data)` was already fully applied
(the external reference resolves to a positive document number and both a
consumption and a production row exist for it, the production row carrying
a non-empty article code), the operation succeeds with
`alreadyImported = true`, returns the previously recorded document number
and finished-good code, reports zero detail-row inserts, and leaves the
database state exactly unchanged; the orchestrator commits on the first
attempt. -/
theorem C1_idempotent_already_imported (request : ProducePachetInput) (db : DB) (nr : Int)
    (brow : MiscariRow)
    (h1 : predRowLookup db request.pachet.id_doc = some nr)
    (h2 : 0 < nr)
    (h3 : 0 < bcCountFor db request.pachet.data nr)
    (h4 : 0 < bpCountFor db request.pachet.data nr)
    (h5 : bpDocByDateNrDoc db request.pachet.data nr = some brow)
    (h6 : brow.cod_art ≠ "") :
    ∃ res : ProduceResult,
      run_execute_produce_pachet_once request db = (.ok res, db)
      ∧ res.alreadyImported = true
      ∧ res.success = true
      ∧ res.nrDoc = nr
      ∧ res.miscariId = brow.id
      ∧ res.codPachet = trim_db_char (codFromBpRow brow.cod_art)
      ∧ res.bonDetInserted = 0
      ∧ res.predDetInserted = 0
      ∧ (∀ payload, validate_produce_pachet_input payload = .ok request →
          producePachet payload db = (.ok res, db, [.connect, .commit, .close])) := by
  have hfe := find_existing_complete h1 h2 h3 h4 h5
  have hcc := codFromBpRow_ne_empty h6
  have hrun : run_execute_produce_pachet_once request db
      = (.ok (alreadyImportedResult request.pachet
          { miscari_id := brow.id, nr_doc := nr, cod_pachet_db := codFromBpRow brow.cod_art,
            bc_count := bcCountFor db request.pachet.data nr,
            bp_count := bpCountFor db request.pachet.data nr }
          (codFromBpRow brow.cod_art)), db) := by
    unfold run_execute_produce_pachet_once
    dsimp only []
    rw [hfe]
    dsimp only []
    rw [if_neg hcc]
  refine ⟨_, hrun, rfl, rfl, rfl, rfl, rfl, rfl, rfl, ?_⟩
  intro payload hv
  unfold producePachet
  rw [hv]
  simp only [hrun]

/-- Witness for C1 on the ledger holding the fully imported document 3. -/
theorem C1_witness :
    ∃ res : ProduceResult,
      run_execute_produce_pachet_once exampleReq completeDb = (.ok res, completeDb)
      ∧ res.alreadyImported = true ∧ res.nrDoc = 3 ∧ res.bonDetInserted = 0
      ∧ res.predDetInserted = 0 := by
  obtain ⟨res, ha, hb, _, hd, _, _, hg, hh, _⟩ :=
    C1_idempotent_already_imported exampleReq completeDb 3
      { id := 1, id_u := some 2, data := 100, nr_doc := 3, tip_doc := "BP",
        cod_art := "00000008        ", cantitate := 2, gestiune := "GEST1", pret := some 10 }
      (by decide) (by decide) (by decide) (by decide) (by decide) (by decide)
  exact ⟨res, ha, hb, hd, hg, hh⟩


/-! ### More supporting lemmas -/

theorem newMiscariRows_eq (pachet : PachetInput) (produse : List ProdusInput)
    (docId nrDoc : Int) (idu : Option Int) (hp : Bool) (cod : String) :
    newMiscariRows pachet produse docId nrDoc idu hp cod
      = (mkBcRows pachet docId nrDoc produse idu).1
        ++ [bpRow pachet cod docId nrDoc (mkBcRows pachet docId nrDoc produse idu).2 hp] :=
  rfl

/-! ### C9 -/

/-- C9: the finished-good article is resolved by name: a hit returns its
code without touching the catalog; a miss on a normal production creates
exactly one article row named after the package; a miss on a reversal
fails with no state change; a reversal request over an unprocessed
reference with an unknown name makes the whole operation fail with the
database untouched; and the already-imported path leaves the catalog
unchanged. -/
theorem C9_article_creation :
    (∀ (db : DB) (pachet : PachetInput) (ac : Bool) (row : ArticolRow),
      selectPachetByDenumire db pachet.denumire = some row →
      ensurePachetInArticole db pachet ac = (.ok (padCodFromRow row.cod), db))
    ∧ (∀ (db : DB) (pachet : PachetInput),
      selectPachetByDenumire db pachet.denumire = none →
      ensurePachetInArticole db pachet true =
        (.ok (ljust (zfill (toString (maxArticoleCod8 db + 1)) 8) 16),
         { db with articole := db.articole ++
            [{ cod := ljust (zfill (toString (maxArticoleCod8 db + 1)) 8) 16,
               denumire := pachet.denumire, um := "BUC", tva := pachet.cota_tva,
               den_tip := "Produse finite", tip := "04" }] }))
    ∧ (∀ (db : DB) (pachet : PachetInput),
      selectPachetByDenumire db pachet.denumire = none →
      ensurePachetInArticole db pachet false =
        (.error (.runtimeError
          "Package article does not exist in ARTICOLE for storno/desfacere production."), db))
    ∧ (∀ (request : ProducePachetInput) (db : DB),
      request.pachet.cantitate_produsa < 0 →
      predRowLookup db request.pachet.id_doc = none →
      selectPachetByDenumire db request.pachet.denumire = none →
      run_execute_produce_pachet_once request db =
        (.error (.runtimeError
          "Package article does not exist in ARTICOLE for storno/desfacere production."), db))
    ∧ (∀ (request : ProducePachetInput) (db : DB) (nr : Int) (brow : MiscariRow),
      predRowLookup db request.pachet.id_doc = some nr → 0 < nr →
      0 < bcCountFor db request.pachet.data nr → 0 < bpCountFor db request.pachet.data nr →
      bpDocByDateNrDoc db request.pachet.data nr = some brow → brow.cod_art ≠ "" →
      (run_execute_produce_pachet_once request db).2.articole = db.articole) := by
  have hensF : ∀ (db : DB) (pachet : PachetInput),
      selectPachetByDenumire db pachet.denumire = none →
      ensurePachetInArticole db pachet false =
        (.error (.runtimeError
          "Package article does not exist in ARTICOLE for storno/desfacere production."), db) := by
    intro db pachet hsel
    unfold ensurePachetInArticole
    rw [hsel]
    rfl
  refine ⟨?_, ?_, hensF, ?_, ?_⟩
  · intro db pachet ac row hsel
    unfold ensurePachetInArticole
    rw [hsel]
  · intro db pachet hsel
    unfold ensurePachetInArticole
    rw [hsel]
    rfl
  · intro request db hneg hlook hsel
    have hfe : find_existing_document db request.pachet = .ok none := by
      unfold find_existing_document
      rw [hlook]
    have hst : operation_sign request.pachet = -1 := by
      unfold operation_sign
      rw [if_pos hneg]
    unfold run_execute_produce_pachet_once
    dsimp only []
    rw [hfe]
    dsimp only []
    rw [hst]
    rw [show (!decide ((-1 : Int) < 0)) = false from rfl]
    rw [hensF db request.pachet hsel]
  · intro request db nr brow h1 h2 h3 h4 h5 h6
    have hfe := find_existing_complete h1 h2 h3 h4 h5
    have hcc := codFromBpRow_ne_empty h6
    have hrun : run_execute_produce_pachet_once request db
        = (.ok (alreadyImportedResult request.pachet
            { miscari_id := brow.id, nr_doc := nr, cod_pachet_db := codFromBpRow brow.cod_art,
              bc_count := bcCountFor db request.pachet.data nr,
              bp_count := bpCountFor db request.pachet.data nr }
            (codFromBpRow brow.cod_art)), db) := by
      unfold run_execute_produce_pachet_once
      dsimp only []
      rw [hfe]
      dsimp only []
      rw [if_neg hcc]
    rw [hrun]

/-- Witness for C9: creating the missing finished-good article on a normal
production over an empty catalog match. -/
theorem C9_witness :
    ensurePachetInArticole exampleDb examplePachet true =
      (.ok (ljust (zfill (toString (maxArticoleCod8 exampleDb + 1)) 8) 16),
       { exampleDb with articole := exampleDb.articole ++
          [{ cod := ljust (zfill (toString (maxArticoleCod8 exampleDb + 1)) 8) 16,
             denumire := examplePachet.denumire, um := "BUC", tva := examplePachet.cota_tva,
             den_tip := "Produse finite", tip := "04" }] }) :=
  C9_article_creation.2.1 exampleDb examplePachet (by decide)

/-! ### C10 -/

/-- C10: on the write path every stored consumption (`BC`) row carries the
material quantity with the sign opposite to the operation sign, the
production (`BP`) row carries the produced quantity with the operation
sign, and hence each consumption row quantity has the opposite sign of the
production row quantity, for normal and reversal operations alike. -/
theorem C10_sign_invariant (request : ProducePachetInput) (db : DB)
    (res : ProduceResult) (db' : DB)
    (hq : ∀ p ∈ request.produse, p.cantitate ≠ 0)
    (hcp : request.pachet.cantitate_produsa ≠ 0)
    (hrun : run_execute_produce_pachet_once request db = (.ok res, db'))
    (hni : res.alreadyImported = false) :
    ∃ (bc_rows : List MiscariRow) (bp : MiscariRow),
      db'.miscari = db.miscari ++ bc_rows ++ [bp]
      ∧ bc_rows.length = request.produse.length
      ∧ (∀ pr ∈ bc_rows.zip request.produse,
          pr.1.tip_doc = "BC"
          ∧ pr.1.cantitate = -((operation_sign request.pachet : Int) : Rat) * |pr.2.cantitate|)
      ∧ bp.tip_doc = "BP"
      ∧ bp.cantitate = ((operation_sign request.pachet : Int) : Rat)
          * |request.pachet.cantitate_produsa|
      ∧ (∀ r ∈ bc_rows, r.cantitate * bp.cantitate < 0) := by
  obtain ⟨cod, hnr, hmis⟩ := run_ok_not_imported hrun hni
  rw [newMiscariRows_eq] at hmis
  have hsv : operation_sign request.pachet = -1 ∨ operation_sign request.pachet = 1 := by
    unfold operation_sign
    by_cases hs : request.pachet.cantitate_produsa < 0
    · rw [if_pos hs]
      exact Or.inl rfl
    · rw [if_neg hs]
      exact Or.inr rfl
  set idu := (if db.schema.miscariHasIdU then some (get_next_miscari_id_u db) else none) with hidu
  set docId := get_next_miscari_id db with hdocId
  refine ⟨(mkBcRows request.pachet docId res.nrDoc request.produse idu).1,
    bpRow request.pachet cod docId res.nrDoc
      (mkBcRows request.pachet docId res.nrDoc request.produse idu).2
      db.schema.miscariHasPret, ?_, ?_, ?_, rfl, ?_, ?_⟩
  · rw [hmis, List.append_assoc]
  · exact mkBcRows_length request.pachet docId res.nrDoc request.produse idu
  · intro pr hpr
    have hz := mkBcRows_zip request.pachet docId res.nrDoc request.produse idu pr hpr
    refine ⟨hz.1, ?_⟩
    rw [hz.2.2]
    rcases hsv with hs | hs
    · rw [hs]
      norm_num
    · rw [hs]
      norm_num
  · show (if operation_sign request.pachet < 0 then -|request.pachet.cantitate_produsa|
      else |request.pachet.cantitate_produsa|) = _
    rcases hsv with hs | hs
    · rw [hs]
      norm_num
    · rw [hs]
      norm_num
  · intro r hr
    have hlen := mkBcRows_length request.pachet docId res.nrDoc request.produse idu
    obtain ⟨p, hp⟩ := mem_zip_of_mem_left hlen hr
    have hz := mkBcRows_zip request.pachet docId res.nrDoc request.produse idu (r, p) hp
    have hpmem : p ∈ request.produse := (List.of_mem_zip hp).2
    have hqp : p.cantitate ≠ 0 := hq p hpmem
    have habs : (0 : Rat) < |p.cantitate| := abs_pos.mpr hqp
    have habs2 : (0 : Rat) < |request.pachet.cantitate_produsa| := abs_pos.mpr hcp
    have hbp : (bpRow request.pachet cod docId res.nrDoc
        (mkBcRows request.pachet docId res.nrDoc request.produse idu).2
        db.schema.miscariHasPret).cantitate
        = (if operation_sign request.pachet < 0 then -|request.pachet.cantitate_produsa|
           else |request.pachet.cantitate_produsa|) := rfl
    rw [hz.2.2, hbp]
    rcases hsv with hs | hs
    · rw [hs]
      norm_num
      nlinarith [mul_pos habs habs2]
    · rw [hs]
      norm_num
      nlinarith [mul_pos habs habs2]

/-- Witness for C10: evaluating the write path on the example ledger, the
consumption rows and the production row carry opposite-sign quantities. -/
theorem C10_witness :
    ∃ (bc_rows : List MiscariRow) (bp : MiscariRow),
      (run_execute_produce_pachet_once exampleReq exampleDb).2.miscari
        = exampleDb.miscari ++ bc_rows ++ [bp]
      ∧ (∀ r ∈ bc_rows, r.cantitate * bp.cantitate < 0) := by
  obtain ⟨bc_rows, bp, hm, _, _, _, _, hopp⟩ :=
    C10_sign_invariant exampleReq exampleDb
      { success := true, message := "producePachet executed successfully.",
        codPachet := "00000008", nrDoc := 1, idDoc := 5, miscariId := 1,
        bonDetInserted := 1, predDetInserted := 1, alreadyImported := false,
        idUStart := some 1, idUEnd := some 2, bonDetIdUStart := none, bonDetIdUEnd := none }
      (run_execute_produce_pachet_once exampleReq exampleDb).2
      (by decide) (by decide) (by with_unfolding_all rfl) rfl
  exact ⟨bc_rows, bp, hm, hopp⟩


/-! ### C5 -/

/-- C5: the next document number is `COALESCE(MAX(NR_DOC), 0) + 1` over the
`BP` movements of the requested date (so the first document of a date gets
number 1); two sequential successful write-path requests on the same date
get strictly increasing numbers; and on the example ledger a request on a
different date reuses the number already used on the first date. -/
theorem C5_next_nr_doc :
    (∀ (db : DB) (d : Date), getNextNrDoc db d
        = coalesce0 (sqlMax ((db.miscari.filter
            (fun r => r.data == d && r.tip_doc == "BP")).map (fun r => r.nr_doc))) + 1)
    ∧ (∀ (db : DB) (d : Date), (∀ r ∈ db.miscari, r.data = d → r.tip_doc ≠ "BP") →
        getNextNrDoc db d = 1)
    ∧ (∀ (req1 req2 : ProducePachetInput) (db db1 db2 : DB) (res1 res2 : ProduceResult),
        run_execute_produce_pachet_once req1 db = (.ok res1, db1) →
        res1.alreadyImported = false →
        run_execute_produce_pachet_once req2 db1 = (.ok res2, db2) →
        res2.alreadyImported = false →
        req2.pachet.data = req1.pachet.data →
        res1.nrDoc < res2.nrDoc)
    ∧ (run_execute_produce_pachet_once exampleReq exampleDb).1.map (fun r => r.nrDoc) = .ok 1
    ∧ ((run_execute_produce_pachet_once exampleReqOtherDate
          (run_execute_produce_pachet_once exampleReq exampleDb).2).1.map (fun r => r.nrDoc)
        = .ok 1)
    ∧ exampleReqOtherDate.pachet.data ≠ exampleReq.pachet.data := by
  refine ⟨?_, ?_, ?_, by with_unfolding_all rfl, by with_unfolding_all rfl, by decide⟩
  · intro db d
    rfl
  · intro db d hno
    have hfil : db.miscari.filter (fun r => r.data == d && r.tip_doc == "BP") = [] := by
      rw [List.filter_eq_nil_iff]
      intro r hr
      intro hc
      rw [Bool.and_eq_true, beq_iff_eq, beq_iff_eq] at hc
      exact hno r hr hc.1 hc.2
    unfold getNextNrDoc maxNrDocBp
    rw [hfil]
    rfl
  · intro req1 req2 db db1 db2 res1 res2 h1 hni1 h2 hni2 hd
    obtain ⟨cod1, hnr1, hmis1⟩ := run_ok_not_imported h1 hni1
    obtain ⟨cod2, hnr2, hmis2⟩ := run_ok_not_imported h2 hni2
    rw [newMiscariRows_eq] at hmis1
    have hbp_mem : (bpRow req1.pachet cod1 (get_next_miscari_id db) res1.nrDoc
        ((mkBcRows req1.pachet (get_next_miscari_id db) res1.nrDoc req1.produse
          (if db.schema.miscariHasIdU then some (get_next_miscari_id_u db) else none)).2)
        db.schema.miscariHasPret) ∈ db1.miscari := by
      rw [hmis1]
      refine List.mem_append.mpr (Or.inr (List.mem_append.mpr (Or.inr ?_)))
      exact List.mem_singleton.mpr rfl
    have hge := maxNrDocBp_ge hbp_mem (show _ = req2.pachet.data from hd.symm) rfl
    have hle : res1.nrDoc ≤ maxNrDocBp db1 req2.pachet.data := hge
    rw [hnr2]
    unfold getNextNrDoc
    omega

/-- Witness for C5: the first document number on an empty date is 1. -/
theorem C5_witness : getNextNrDoc exampleDb 100 = 1 :=
  C5_next_nr_doc.2.1 exampleDb 100 (by decide)


/-! ### C7 -/

/-- C7: for a dynamically-shaped detail-table column left unresolved by the
name-matching policy: a required column (non-nullable, no default,
non-identity in the catalog) receives the type-appropriate synthesized
default (0 for numeric/boolean type codes, the request date for DATE,
midnight for TIME, the request date at midnight for TIMESTAMP, the empty
string for character types); a required column whose type has no default
makes the insert fail with the message naming the table and the sorted
unmapped column names; an optional unresolved column is omitted from the
insert; and the catalog classification marks a column required iff
non-nullable without default and identity iff its identity type is set. -/
theorem C7_dynamic_column_policy :
    (∀ pachet : PachetInput,
      default_value_for_field_type 12 pachet = some (.dateV pachet.data)
      ∧ default_value_for_field_type 13 pachet = some (.timeV 0 0 0)
      ∧ default_value_for_field_type 35 pachet = some (.timestampV pachet.data 0 0 0)
      ∧ (∀ t : Int, t ∈ ([7, 8, 10, 16, 23, 27] : List Int) →
          default_value_for_field_type t pachet = some (.intV 0))
      ∧ (∀ t : Int, t ∈ ([14, 37] : List Int) →
          default_value_for_field_type t pachet = some (.strV "")))
    ∧ (∀ (mapping : String → Option DVal) (pachet : PachetInput) (fields : List FieldInfo)
        (f : FieldInfo), f ∈ fields → mapping f.name = none → f.required = true →
        (∀ v, default_value_for_field_type f.field_type pachet = some v →
          (f.name, v) ∈ (resolveInsertColumns mapping pachet fields).columns)
        ∧ (default_value_for_field_type f.field_type pachet = none →
          f.name ∈ (resolveInsertColumns mapping pachet fields).missing_required))
    ∧ (∀ (mapping : String → Option DVal) (pachet : PachetInput) (fields : List FieldInfo)
        (f : FieldInfo), (fields.map (fun g => g.name)).Nodup → f ∈ fields →
        mapping f.name = none → f.required = false →
        f.name ∉ (resolveInsertColumns mapping pachet fields).columns.map Prod.fst
        ∧ f.name ∉ (resolveInsertColumns mapping pachet fields).missing_required)
    ∧ (∀ (fields : List FieldInfo) (pachet : PachetInput) (produs : ProdusInput)
        (rest : List ProdusInput) (docId nrDoc : Int) (st : Bool) (line : Nat)
        (idu : Option Int) (db : DB) (den um : String),
        get_articol_consum_details db produs.cod_articol_db = .ok (den, um) →
        (bonDetLinePlan fields pachet produs docId nrDoc line idu st den um).missing_required
          ≠ [] →
        insertBonDetLines fields pachet docId nrDoc st (produs :: rest) line idu db
          = (.error (.runtimeError (bonDetMissingMsg line (joinSorted
              (bonDetLinePlan fields pachet produs docId nrDoc line idu st den
                um).missing_required))), db))
    ∧ (∀ (db : DB) (request : ProducePachetInput) (cod : String) (docId nrDoc : Int)
        (first : ProdusInput),
        get_relation_fields db "PRED_DET" ≠ [] →
        (get_relation_fields db "PRED_DET").filter (fun f => !f.identity) ≠ [] →
        request.produse.head? = some first →
        (predDetPlan ((get_relation_fields db "PRED_DET").filter (fun f => !f.identity))
            request.pachet first cod docId nrDoc
            (if ((get_relation_fields db "PRED_DET").filter (fun f => !f.identity)).any
                (fun f => pyUpper f.name == "NR") then
              some (get_next_pred_det_nr db) else none)).missing_required ≠ [] →
        insert_pred_det_rows db request cod docId nrDoc
          = (.error (.runtimeError (predDetMissingMsg (joinSorted
              (predDetPlan ((get_relation_fields db "PRED_DET").filter (fun f => !f.identity))
                request.pachet first cod docId nrDoc
                (if ((get_relation_fields db "PRED_DET").filter (fun f => !f.identity)).any
                    (fun f => pyUpper f.name == "NR") then
                  some (get_next_pred_det_nr db) else none)).missing_required))), db))
    ∧ (∀ (catalog : List CatalogField) (cf : CatalogField), cf ∈ catalog →
        ({ name := cf.name, required := cf.null_flag == (1 : Int) && !cf.has_default,
           identity := decide ((0 : Int) ≤ cf.identity_type), field_type := cf.field_type }
          : FieldInfo) ∈ get_relation_fields_of catalog) := by
  refine ⟨?_, ?_, ?_, ?_, ?_, ?_⟩
  · intro pachet
    refine ⟨rfl, rfl, rfl, ?_, ?_⟩
    · intro t ht
      unfold default_value_for_field_type
      rw [if_pos ht]
    · intro t ht
      fin_cases ht <;> rfl
  · intro mapping pachet fields f hf hm hr
    exact ⟨fun v hv => resolve_required_default_mem mapping pachet fields f hf hm hr v hv,
      fun hd => resolve_required_nodefault_missing mapping pachet fields f hf hm hr hd⟩
  · intro mapping pachet fields f hnd hf hm hr
    exact resolve_optional_omitted mapping pachet fields f hnd hf hm hr
  · intro fields pachet produs rest docId nrDoc st line idu db den um hdet hmiss
    unfold insertBonDetLines
    rw [hdet]
    dsimp only []
    rw [if_pos hmiss]
  · intro db request cod docId nrDoc first hf hins hhead hmiss
    unfold insert_pred_det_rows
    dsimp only []
    rw [if_neg hf, if_neg hins, hhead]
    dsimp only []
    rw [if_pos hmiss]
  · intro catalog cf hcf
    exact List.mem_map_of_mem _ hcf

/-- Witness for C7: a required column of unknown name and type code 99 has
no synthesizable default, so the consumption-line insert fails naming the
unmapped column. -/
theorem C7_witness :
    insertBonDetLines [⟨"MYSTERY_COL", true, false, 99⟩] examplePachet 1 1 false
        [exampleProdus] 1 none exampleDb
      = (.error (.runtimeError (bonDetMissingMsg 1 (joinSorted
          (bonDetLinePlan [⟨"MYSTERY_COL", true, false, 99⟩] examplePachet exampleProdus
            1 1 1 none false "Material" "KG").missing_required))), exampleDb) :=
  C7_dynamic_column_policy.2.2.2.1 [⟨"MYSTERY_COL", true, false, 99⟩] examplePachet
    exampleProdus [] 1 1 false 1 none exampleDb "Material" "KG"
    (by decide) (by with_unfolding_all decide)


end Erp
